import Mathlib

/-!
Verification of the voice-controlled email assistant
(`server/routes.ts`, `server/storage.ts`, `server/lib/voice-manager.ts`,
`server/lib/openai.ts`, `server/lib/postmark.ts`, `shared/schema.ts`).

The mailbox store is embedded from the `IStorage` implementations in
`server/storage.ts` (the observable semantics of `DatabaseStorage`, which is
the instance the routes use; `MemStorage` in the same file implements the same
interface).  The action dispatcher is the large `switch` in the
`/api/voice/command` route of `server/routes.ts`.  JavaScript numbers that
hold email ids are embedded as `Nat`, timestamps as `Nat` (epoch
milliseconds), and NLU confidences as `Rat` (the source values are JSON
numbers in `[0,1]` after clamping).  JavaScript truthiness tests on optional
strings/numbers/booleans are embedded by the `truthy*` helpers below.
-/

namespace VoiceMail

/-- Case-insensitive-ready substring test on character lists:
`charsContains sub l` is true iff `sub` occurs contiguously in `l`
(the semantics of JavaScript `String.prototype.includes` / SQL `LIKE %sub%`). -/
def charsContains (sub : List Char) : List Char → Bool
  | [] => sub.isEmpty
  | c :: rest => sub.isPrefixOf (c :: rest) || charsContains sub rest

/-- Embeds `s.includes(sub)` as `strContains s sub`. -/
def strContains (s sub : String) : Bool :=
  charsContains sub.toList s.toList

/-- Embeds JavaScript `s.toLowerCase()` on the character level. -/
def lowerStr (s : String) : String :=
  String.mk (s.toList.map Char.toLower)

/-- JavaScript truthiness of an optional boolean (`undefined` and `false` are falsy). -/
def truthyBool : Option Bool → Bool
  | some b => b
  | none => false

/-- JavaScript truthiness of an optional number (`undefined` and `0` are falsy). -/
def truthyNat : Option Nat → Bool
  | some n => n != 0
  | none => false

/-- JavaScript truthiness of an optional string (`undefined` and `""` are falsy). -/
def truthyStr : Option String → Bool
  | some s => s != ""
  | none => false

/-- Embeds the JavaScript idiom `x || d` for an optional string `x`
(used e.g. for `intent.parameters?.timeframe || 'recent'`). -/
def strOr (o : Option String) (d : String) : String :=
  match o with
  | some s => if s == "" then d else s
  | none => d

/-- Embeds the JavaScript idiom `x || d` for an optional number
(used for `data.character_count || 0` and `data.character_limit || 10000`). -/
def natOr (o : Option Nat) (d : Nat) : Nat :=
  match o with
  | some n => if n == 0 then d else n
  | none => d

/-- Embeds JavaScript `Math.round` on exact rationals: round half toward positive
infinity. -/
def jsRound (q : Rat) : Int :=
  (q + 1 / 2).floor

/-- Embeds JavaScript `Math.min` on two exact rationals. -/
def jsMin (a b : Rat) : Rat :=
  if a ≤ b then a else b

/-- Embeds JavaScript `Math.max` on two exact rationals. -/
def jsMax (a b : Rat) : Rat :=
  if a ≤ b then b else a

/-- An `emails` table row (`shared/schema.ts`). -/
structure Email where
  id : Nat
  messageId : String
  fromEmail : String
  fromName : Option String := none
  toEmail : String := ""
  subject : String := ""
  textContent : Option String := none
  htmlContent : Option String := none
  receivedAt : Nat := 0
  isRead : Bool := false
  isImportant : Bool := false
  isDeleted : Bool := false
  attachments : List String := []
  isForwarded : Bool := false
  originalFrom : Option String := none
  originalFromName : Option String := none
  originalTo : Option String := none
  originalDate : Option String := none
  originalSubject : Option String := none
  actualSenderEmail : Option String := none
  actualSenderName : Option String := none
deriving Repr, DecidableEq

/-- A `voice_commands` table row (`shared/schema.ts`). -/
structure VoiceCommand where
  id : Nat
  transcript : String
  intent : String
  confidence : Int
  executedAt : Nat
  success : Bool
deriving Repr, DecidableEq

/-- The mailbox store state (the two tables the dispatcher touches, plus the
serial-id counters of `MemStorage` / the `serial` columns). -/
structure MailboxStore where
  emails : List Email := []
  currentEmailId : Nat := 1
  voiceCommands : List VoiceCommand := []
  currentVoiceCommandId : Nat := 1
deriving Repr, DecidableEq

/-- The optional filters accepted by `getEmails` (`server/storage.ts`).
`DatabaseStorage.getEmails` applies no limit when none is given, so `limit`
is optional with no default. -/
structure EmailFilters where
  isRead : Option Bool := none
  isImportant : Option Bool := none
  isDeleted : Option Bool := none
  limit : Option Nat := none
  offset : Nat := 0
deriving Repr, DecidableEq

/-- The conjunction of the three flag conditions of `getEmails`. -/
def matchesFilters (f : EmailFilters) (e : Email) : Bool :=
  (match f.isRead with | some b => e.isRead == b | none => true) &&
  (match f.isImportant with | some b => e.isImportant == b | none => true) &&
  (match f.isDeleted with | some b => e.isDeleted == b | none => true)

/-- The `ORDER BY received_at DESC` comparison as a boolean relation (ties allowed either way,
matching the unspecified tie order of the database; `mergeSort` is stable). -/
def byReceivedAtDesc (a b : Email) : Bool :=
  b.receivedAt ≤ a.receivedAt

/-- Embeds `getEmails` of `server/storage.ts`: filter by the boolean flags, order by
`receivedAt` descending, then apply offset and (when present) limit. -/
def getEmails (s : MailboxStore) (f : EmailFilters) : List Email :=
  let sorted := (s.emails.filter (matchesFilters f)).mergeSort byReceivedAtDesc
  let afterOffset := sorted.drop f.offset
  match f.limit with
  | some n => afterOffset.take n
  | none => afterOffset

/-- Embeds `getEmailById` of `server/storage.ts`. -/
def getEmailById (s : MailboxStore) (id : Nat) : Option Email :=
  s.emails.find? (fun e => e.id == id)

/-- Embeds `getEmailByMessageId` of `server/storage.ts`. -/
def getEmailByMessageId (s : MailboxStore) (messageId : String) : Option Email :=
  s.emails.find? (fun e => e.messageId == messageId)

/-- The partial update objects the dispatcher passes to `updateEmail`
(it only ever updates the three boolean flags). -/
structure EmailUpdate where
  isRead : Option Bool := none
  isImportant : Option Bool := none
  isDeleted : Option Bool := none
deriving Repr, DecidableEq

/-- The JavaScript spread `{ ...email, ...updates }` restricted to the flag
fields the dispatcher updates. -/
def applyUpdate (u : EmailUpdate) (e : Email) : Email :=
  { e with
    isRead := u.isRead.getD e.isRead
    isImportant := u.isImportant.getD e.isImportant
    isDeleted := u.isDeleted.getD e.isDeleted }

/-- Embeds `updateEmail` of `server/storage.ts`: when a row with the id exists, merge
the updates into it and return the updated row; otherwise leave the store
unchanged and return nothing. -/
def updateEmail (s : MailboxStore) (id : Nat) (u : EmailUpdate) :
    MailboxStore × Option Email :=
  match s.emails.find? (fun e => e.id == id) with
  | none => (s, none)
  | some _ =>
    let emails := s.emails.map (fun e => if e.id == id then applyUpdate u e else e)
    ({ s with emails := emails }, emails.find? (fun e => e.id == id))

/-- Embeds `deleteEmail` of `server/storage.ts`: physical row removal. -/
def deleteEmail (s : MailboxStore) (id : Nat) : MailboxStore × Bool :=
  if s.emails.any (fun e => e.id == id) then
    ({ s with emails := s.emails.filter (fun e => e.id != id) }, true)
  else
    (s, false)

/-- The full-text match of `searchEmails` (`server/storage.ts`): the query
occurs case-insensitively in the subject, sender address, sender name or text
body (`ilike` on the nullable columns is false when the column is null). -/
def emailMatchesQuery (q : String) (e : Email) : Bool :=
  let lq := lowerStr q
  strContains (lowerStr e.subject) lq ||
  strContains (lowerStr e.fromEmail) lq ||
  (match e.fromName with | some n => strContains (lowerStr n) lq | none => false) ||
  (match e.textContent with | some t => strContains (lowerStr t) lq | none => false)

/-- Embeds `searchEmails` of `server/storage.ts`: only non-deleted emails are
searched, ordered by `receivedAt` descending. -/
def searchEmails (s : MailboxStore) (q : String) : List Email :=
  (s.emails.filter (fun e => !e.isDeleted && emailMatchesQuery q e)).mergeSort
    byReceivedAtDesc

/-- The insert payload of `createVoiceCommand` (`insertVoiceCommandSchema`). -/
structure InsertVoiceCommand where
  transcript : String
  intent : String
  confidence : Int
  success : Bool
deriving Repr, DecidableEq

/-- Embeds `createVoiceCommand` of `server/storage.ts`: append a log row with the
next serial id and the current time. -/
def createVoiceCommand (s : MailboxStore) (now : Nat) (c : InsertVoiceCommand) :
    MailboxStore × VoiceCommand :=
  let vc : VoiceCommand :=
    { id := s.currentVoiceCommandId
      transcript := c.transcript
      intent := c.intent
      confidence := c.confidence
      executedAt := now
      success := c.success }
  ({ s with
      voiceCommands := s.voiceCommands ++ [vc]
      currentVoiceCommandId := s.currentVoiceCommandId + 1 }, vc)

/-- The insert payload of `createEmail` (`insertEmailSchema`: every column
except the serial id and the defaulted `receivedAt`; the webhook route never
supplies the three flags, which therefore take their schema defaults). -/
structure InsertEmail where
  messageId : String
  fromEmail : String
  fromName : Option String := none
  toEmail : String := ""
  subject : String := ""
  textContent : Option String := none
  htmlContent : Option String := none
  attachments : List String := []
  isForwarded : Bool := false
  originalFrom : Option String := none
  originalFromName : Option String := none
  originalTo : Option String := none
  originalDate : Option String := none
  originalSubject : Option String := none
deriving Repr, DecidableEq

/-- Embeds `createEmail` of `server/storage.ts`: insert a new row with the next
serial id, ingestion-time `receivedAt` and defaulted flags. -/
def createEmail (s : MailboxStore) (now : Nat) (ie : InsertEmail) :
    MailboxStore × Email :=
  let e : Email :=
    { id := s.currentEmailId
      messageId := ie.messageId
      fromEmail := ie.fromEmail
      fromName := ie.fromName
      toEmail := ie.toEmail
      subject := ie.subject
      textContent := ie.textContent
      htmlContent := ie.htmlContent
      receivedAt := now
      isRead := false
      isImportant := false
      isDeleted := false
      attachments := ie.attachments
      isForwarded := ie.isForwarded
      originalFrom := ie.originalFrom
      originalFromName := ie.originalFromName
      originalTo := ie.originalTo
      originalDate := ie.originalDate
      originalSubject := ie.originalSubject }
  ({ s with emails := s.emails ++ [e], currentEmailId := s.currentEmailId + 1 }, e)

/-- The optional parameter bag of a normalized intent
(`VoiceCommandIntent.parameters` in `server/lib/openai.ts`). -/
structure IntentParams where
  query : Option String := none
  emailId : Option Nat := none
  sender : Option String := none
  subject : Option String := none
  all : Option Bool := none
  recipient : Option String := none
  message : Option String := none
  timeframe : Option String := none
  tab : Option String := none
deriving Repr, DecidableEq

/-- A normalized intent (`VoiceCommandIntent` in `server/lib/openai.ts`).
The resolver does not validate the action against the closed enumeration, so
the action is a plain string; the dispatcher's `default` case absorbs
anything unrecognized. -/
structure Intent where
  action : String
  parameters : Option IntentParams := none
  confidence : Rat
deriving Repr, DecidableEq

/-- The fields of the JSON object the NLU provider returns, each possibly
absent (`JSON.parse` output in `processVoiceCommand`). -/
structure RawIntentResult where
  action : Option String := none
  parameters : Option IntentParams := none
  confidence : Option Rat := none
deriving Repr, DecidableEq

/-- The empty raw result: what `JSON.parse('{}')` yields, which is also the
outcome for an empty/absent provider message (`content || '{}'`). -/
def emptyRawResult : RawIntentResult := {}

/-- The possible outcomes of the provider call inside `processVoiceCommand`:
the API call throws, the returned content is not valid JSON (`JSON.parse`
throws inside the same `try`), or a JSON object is obtained. -/
inductive ProviderOutcome where
  | apiError
  | malformed
  | parsed (r : RawIntentResult)
deriving Repr, DecidableEq

/-- Embeds the JavaScript idiom `x || d` for an optional number value
(`result.confidence || 0.5`; `0` is falsy). -/
def ratOr (o : Option Rat) (d : Rat) : Rat :=
  match o with
  | some q => if q = 0 then d else q
  | none => d

/-- Embeds `processVoiceCommand` of `server/lib/openai.ts`, as a function of the
provider outcome: normalize the raw result, defaulting the action to
`unknown`, the parameters to `{}` and the confidence to `0.5`, then clamp the
confidence into `[0, 1]`; any error inside the `try` yields
`{action: "unknown", confidence: 0}` (with no parameters object). -/
def processVoiceCommand : ProviderOutcome → Intent
  | .apiError => { action := "unknown", parameters := none, confidence := 0 }
  | .malformed => { action := "unknown", parameters := none, confidence := 0 }
  | .parsed r =>
    { action := strOr r.action ("unknown")
      parameters := some (r.parameters.getD {})
      confidence := jsMax 0 (jsMin 1 (ratOr r.confidence (1 / 2))) }

/-- The `result` object assembled by the `/api/voice/command` route: the
originating intent plus optional summary, email list and tab hint. -/
structure CommandResult where
  intent : Intent
  emails : Option (List Email) := none
  summary : Option String := none
  switchTab : Option String := none
deriving Repr, DecidableEq

/-- Outcome of one dispatch: either a result, or a store error that escaped
to the route-level `catch` (the store keeps any mutations already applied). -/
inductive DispatchOutcome where
  | ok (store : MailboxStore) (result : CommandResult)
  | storeError (store : MailboxStore)
deriving Repr, DecidableEq

/-- The store after a dispatch, successful or not. -/
def DispatchOutcome.store : DispatchOutcome → MailboxStore
  | .ok s _ => s
  | .storeError s => s

/-- The summary of a successful dispatch (an error response carries none). -/
def DispatchOutcome.summary : DispatchOutcome → Option String
  | .ok _ r => r.summary
  | .storeError _ => none

/-- The email list of a successful dispatch. -/
def DispatchOutcome.emailList : DispatchOutcome → Option (List Email)
  | .ok _ r => r.emails
  | .storeError _ => none

/-- Whether the dispatch produced a result. -/
def DispatchOutcome.isOk : DispatchOutcome → Bool
  | .ok _ _ => true
  | .storeError _ => false

/-- A sequential bulk loop of `updateEmail` calls (`for ... await` in the
dispatcher).  `failsAt n` says whether the store throws on the n-th update
call of this dispatch; the first throw aborts the loop, keeping the
mutations already applied.  Returns the store and whether the loop
completed. -/
def runBulkUpdates (failsAt : Nat → Bool) (u : EmailUpdate) :
    MailboxStore → Nat → List Email → MailboxStore × Bool
  | s, _, [] => (s, true)
  | s, n, e :: rest =>
    if failsAt n then (s, false)
    else runBulkUpdates failsAt u (updateEmail s e.id u).1 (n + 1) rest

/-- A sequential bulk loop of `deleteEmail` calls (`permanently_delete`). -/
def runBulkDeletes (failsAt : Nat → Bool) :
    MailboxStore → Nat → List Email → MailboxStore × Bool
  | s, _, [] => (s, true)
  | s, n, e :: rest =>
    if failsAt n then (s, false)
    else runBulkDeletes failsAt (deleteEmail s e.id).1 (n + 1) rest

/-- A store that never throws. -/
def noFail : Nat → Bool := fun _ => false

/-- The action dispatcher: the `switch (intent.action)` of the
`/api/voice/command` route in `server/routes.ts`, with the external digest
generator (`generateEmailSummary`) passed in as `digest` and store failures
injected through `failsAt` (counting the point-update/point-delete store
calls of this dispatch in program order). -/
def execIntent (failsAt : Nat → Bool) (digest : List Email → String)
    (s : MailboxStore) (intent : Intent) : DispatchOutcome :=
  let p := intent.parameters.getD {}
  match intent.action with
  | "read_emails" | "get_unread" | "get_read" =>
    let emails := getEmails s
      { isRead :=
          if intent.action == "get_unread" then some false
          else if intent.action == "get_read" then some true
          else none
        isDeleted := some false, limit := some 5 }
    if emails.length > 0 then
      .ok s { intent := intent, emails := some emails, summary := some (digest emails) }
    else
      .ok s { intent := intent
              summary := some
                (if intent.action == "get_unread" then
                  "Great news! You\x27re all caught up - no unread emails in your inbox."
                else if intent.action == "get_read" then
                  "You don\x27t have any read emails in your inbox."
                else
                  "Your inbox is empty right now.") }
  | "search_emails" =>
    if truthyStr p.sender then
      let sender := p.sender.getD ""
      let searchResults := searchEmails s sender
      if searchResults.length > 0 then
        .ok s { intent := intent, emails := some searchResults
                summary := some ("I found " ++ toString searchResults.length ++ " email" ++
                  (if searchResults.length > 1 then "s" else "") ++ " from " ++ sender ++
                  ". " ++ digest searchResults) }
      else
        .ok s { intent := intent, emails := some searchResults
                summary := some ("I couldn\x27t find any emails from " ++ sender ++
                  ". Double-check the name or try searching for something else.") }
    else if truthyStr p.query then
      let q := p.query.getD ""
      let searchResults := searchEmails s q
      if searchResults.length > 0 then
        .ok s { intent := intent, emails := some searchResults
                summary := some ("I found " ++ toString searchResults.length ++ " email" ++
                  (if searchResults.length > 1 then "s" else "") ++ " matching \"" ++ q ++
                  "\". " ++ digest searchResults) }
      else
        .ok s { intent := intent, emails := some searchResults
                summary := some ("No emails found for \"" ++ q ++
                  "\". Try different keywords or check the spelling.") }
    else
      .ok s { intent := intent
              summary := some ("What would you like me to search for? You can say something like \x27find emails from Sarah\x27 or \x27search for meeting emails\x27.") }
  | "mark_as_read" =>
    if truthyBool p.all then
      let unreadEmails := getEmails s { isRead := some false, isDeleted := some false }
      let (s1, completed) := runBulkUpdates failsAt { isRead := some true } s 0 unreadEmails
      if completed then
        .ok s1 { intent := intent
                 summary := some
                  (if unreadEmails.length > 0 then
                    "Perfect! I\x27ve marked all " ++ toString unreadEmails.length ++
                      " unread emails as read. Your inbox is now clean."
                  else
                    "You\x27re already all caught up - no unread emails to mark!") }
      else .storeError s1
    else if truthyNat p.emailId then
      if failsAt 0 then .storeError s
      else
        .ok (updateEmail s (p.emailId.getD 0) { isRead := some true }).1
          { intent := intent, summary := some ("Done! Marked that email as read.") }
    else
      .ok s { intent := intent
              summary := some ("I\x27d be happy to mark emails as read. Just let me know which ones - you can say \x27mark all as read\x27 or specify particular emails.") }
  | "delete_emails" =>
    if truthyBool p.all then
      let allEmails := getEmails s { isDeleted := some false }
      let (s1, completed) := runBulkUpdates failsAt { isDeleted := some true } s 0 allEmails
      if completed then
        .ok s1 { intent := intent
                 summary := some
                  (if allEmails.length > 0 then
                    "I\x27ve deleted all " ++ toString allEmails.length ++
                      " emails from your inbox. Your inbox is now completely clean."
                  else
                    "Your inbox is already empty - nothing to delete.") }
      else .storeError s1
    else if truthyNat p.emailId then
      if failsAt 0 then .storeError s
      else
        .ok (updateEmail s (p.emailId.getD 0) { isDeleted := some true }).1
          { intent := intent, summary := some ("Email deleted successfully.") }
    else
      .ok s { intent := intent
              summary := some ("I can help you delete emails. Just specify which ones - you can say \x27delete all emails\x27 or mention specific emails.") }
  | "mark_important" =>
    if truthyBool p.all then
      let emails := getEmails s { isDeleted := some false }
      let (s1, completed) := runBulkUpdates failsAt { isImportant := some true } s 0 emails
      if completed then
        .ok s1 { intent := intent
                 summary := some ("Marked all " ++ toString emails.length ++ " emails as important.") }
      else .storeError s1
    else if truthyNat p.emailId then
      if failsAt 0 then .storeError s
      else
        .ok (updateEmail s (p.emailId.getD 0) { isImportant := some true }).1
          { intent := intent, summary := some ("Email marked as important.") }
    else
      let recentEmails := getEmails s { isDeleted := some false, limit := some 1 }
      match recentEmails with
      | e :: _ =>
        if failsAt 0 then .storeError s
        else
          .ok (updateEmail s e.id { isImportant := some true }).1
            { intent := intent, summary := some ("Most recent email marked as important.") }
      | [] =>
        .ok s { intent := intent, summary := some ("No emails found to mark as important.") }
  | "get_important" =>
    let importantEmails := getEmails s { isImportant := some true, isDeleted := some false }
    if importantEmails.length > 0 then
      .ok s { intent := intent, emails := some importantEmails
              summary := some ("You have " ++ toString importantEmails.length ++
                " important email" ++ (if importantEmails.length > 1 then "s" else "") ++
                ". " ++ digest importantEmails) }
    else
      .ok s { intent := intent, emails := some importantEmails
              summary := some ("You don\x27t have any emails marked as important right now.") }
  | "get_recent" =>
    let timeframe := strOr p.timeframe ("recent")
    let recentEmails := getEmails s { isDeleted := some false, limit := some 10 }
    if recentEmails.length > 0 then
      .ok s { intent := intent, emails := some recentEmails
              summary := some ("Here are your " ++ timeframe ++ " emails. " ++ digest recentEmails) }
    else
      .ok s { intent := intent, emails := some recentEmails
              summary := some ("No recent emails found.") }
  | "archive_emails" =>
    if truthyBool p.all then
      let emails := getEmails s { isDeleted := some false }
      let (s1, completed) := runBulkUpdates failsAt { isDeleted := some true } s 0 emails
      if completed then
        .ok s1 { intent := intent
                 summary := some ("Archived all " ++ toString emails.length ++
                   " emails. Your inbox is now clean.") }
      else .storeError s1
    else if truthyStr p.query then
      let q := p.query.getD ""
      let searchResults := searchEmails s q
      let (s1, completed) := runBulkUpdates failsAt { isDeleted := some true } s 0 searchResults
      if completed then
        .ok s1 { intent := intent
                 summary := some ("Archived " ++ toString searchResults.length ++
                   " emails matching \"" ++ q ++ "\".") }
      else .storeError s1
    else
      .ok s { intent := intent
              summary := some ("Which emails would you like to archive? You can say \x27archive all emails\x27 or \x27archive emails from Sarah\x27.") }
  | "compose_email" =>
    let recipient := strOr p.recipient ("someone")
    .ok s { intent := intent
            summary := some ("I\x27d love to help you compose an email to " ++ recipient ++
              ". Email composition features are coming soon. For now, you can manage your existing emails.") }
  | "reply_email" =>
    .ok s { intent := intent
            summary := some ("Email reply features are coming soon. I can help you read, search, and organize your current emails.") }
  | "forward_email" =>
    let forwardRecipient := strOr p.recipient ("someone")
    .ok s { intent := intent
            summary := some ("Email forwarding to " ++ forwardRecipient ++
              " will be available soon. I can help you manage your current inbox.") }
  | "restore_emails" | "unarchive_emails" =>
    if truthyBool p.all then
      let archivedEmails := getEmails s { isDeleted := some true }
      let (s1, completed) := runBulkUpdates failsAt { isDeleted := some false } s 0 archivedEmails
      if completed then
        .ok s1 { intent := intent
                 summary := some ("Restored " ++ toString archivedEmails.length ++
                   " emails from archive back to your inbox.") }
      else .storeError s1
    else if truthyStr p.sender then
      let senderName := p.sender.getD ""
      let archivedEmails := getEmails s { isDeleted := some true }
      let senderEmails := archivedEmails.filter (fun e =>
        strContains (lowerStr e.fromEmail) (lowerStr senderName) ||
        (match e.fromName with
         | some n => strContains (lowerStr n) (lowerStr senderName)
         | none => false))
      let (s1, completed) := runBulkUpdates failsAt { isDeleted := some false } s 0 senderEmails
      if completed then
        .ok s1 { intent := intent
                 summary := some ("Restored " ++ toString senderEmails.length ++
                   " archived emails from " ++ senderName ++ " back to your inbox.") }
      else .storeError s1
    else if truthyStr p.query then
      let q := p.query.getD ""
      let searchResults := searchEmails s q
      let archivedResults := searchResults.filter (fun e => e.isDeleted)
      let (s1, completed) := runBulkUpdates failsAt { isDeleted := some false } s 0 archivedResults
      if completed then
        .ok s1 { intent := intent
                 summary := some ("Restored " ++ toString archivedResults.length ++
                   " archived emails matching \"" ++ q ++ "\" back to your inbox.") }
      else .storeError s1
    else
      .ok s { intent := intent
              summary := some ("Which archived emails would you like to restore? You can say \x27restore all archived emails\x27 or \x27restore emails from Sarah\x27.") }
  | "mark_unread" =>
    if truthyBool p.all then
      let emails := getEmails s { isDeleted := some false }
      let (s1, completed) := runBulkUpdates failsAt { isRead := some false } s 0 emails
      if completed then
        .ok s1 { intent := intent
                 summary := some ("Marked all " ++ toString emails.length ++ " emails as unread.") }
      else .storeError s1
    else if truthyNat p.emailId then
      if failsAt 0 then .storeError s
      else
        .ok (updateEmail s (p.emailId.getD 0) { isRead := some false }).1
          { intent := intent, summary := some ("Email marked as unread.") }
    else
      let recentEmails := getEmails s { isDeleted := some false, limit := some 1 }
      match recentEmails with
      | e :: _ =>
        if failsAt 0 then .storeError s
        else
          .ok (updateEmail s e.id { isRead := some false }).1
            { intent := intent, summary := some ("Most recent email marked as unread.") }
      | [] =>
        .ok s { intent := intent, summary := some ("No emails found to mark as unread.") }
  | "remove_important" =>
    if truthyBool p.all then
      let importantEmails := getEmails s { isImportant := some true, isDeleted := some false }
      let (s1, completed) := runBulkUpdates failsAt { isImportant := some false } s 0 importantEmails
      if completed then
        .ok s1 { intent := intent
                 summary := some ("Removed important flag from " ++
                   toString importantEmails.length ++ " emails.") }
      else .storeError s1
    else if truthyNat p.emailId then
      if failsAt 0 then .storeError s
      else
        .ok (updateEmail s (p.emailId.getD 0) { isImportant := some false }).1
          { intent := intent, summary := some ("Removed important flag from email.") }
    else
      let importantEmails := getEmails s
        { isImportant := some true, isDeleted := some false, limit := some 1 }
      match importantEmails with
      | e :: _ =>
        if failsAt 0 then .storeError s
        else
          .ok (updateEmail s e.id { isImportant := some false }).1
            { intent := intent
              summary := some ("Removed important flag from most recent important email.") }
      | [] =>
        .ok s { intent := intent, summary := some ("No important emails found to modify.") }
  | "get_archived" =>
    let archivedEmails := getEmails s { isDeleted := some true }
    if archivedEmails.length > 0 then
      .ok s { intent := intent, emails := some archivedEmails
              summary := some ("You have " ++ toString archivedEmails.length ++
                " archived email" ++ (if archivedEmails.length > 1 then "s" else "") ++
                ". " ++ digest archivedEmails) }
    else
      .ok s { intent := intent, emails := some archivedEmails
              summary := some ("You don\x27t have any archived emails.") }
  | "permanently_delete" =>
    if truthyBool p.all then
      let archivedEmails := getEmails s { isDeleted := some true }
      let (s1, completed) := runBulkDeletes failsAt s 0 archivedEmails
      if completed then
        .ok s1 { intent := intent
                 summary := some ("Permanently deleted " ++ toString archivedEmails.length ++
                   " archived emails. This action cannot be undone.") }
      else .storeError s1
    else if truthyStr p.query then
      let queryTerm := p.query.getD ""
      let archivedEmails := getEmails s { isDeleted := some true }
      let matchingEmails := archivedEmails.filter (fun e =>
        strContains (lowerStr e.subject) (lowerStr queryTerm) ||
        (match e.textContent with
         | some t => strContains (lowerStr t) (lowerStr queryTerm)
         | none => false))
      let (s1, completed) := runBulkDeletes failsAt s 0 matchingEmails
      if completed then
        .ok s1 { intent := intent
                 summary := some ("Permanently deleted " ++ toString matchingEmails.length ++
                   " emails matching \"" ++ queryTerm ++ "\". This action cannot be undone.") }
      else .storeError s1
    else
      .ok s { intent := intent
              summary := some ("Which emails would you like to permanently delete? You can say \x27permanently delete all archived emails\x27 or specify a search term.") }
  | "switch_tab" =>
    let tabName := strOr p.tab ("all")
    .ok s { intent := intent
            summary := some ("Switched to " ++ tabName ++
              " tab. You can now see your " ++ tabName ++ " emails.")
            switchTab := some tabName }
  | _ =>
    .ok s { intent := intent
            summary := some ("I can help you read emails, search, mark as read/unread/important, archive/restore emails, switch tabs, or permanently delete them. What would you like me to do?") }

/-- The HTTP-level outcome of the `/api/voice/command` route after the
transcript was validated: either a JSON result or the generic 500 from the
route-level `catch`. -/
inductive VoiceResponse where
  | ok (r : CommandResult)
  | serverError
deriving Repr, DecidableEq

/-- The `/api/voice/command` route body after transcript validation and
intent resolution: log the command (confidence scaled to a 0-100 integer,
success recording only whether the action is known), then dispatch. -/
def handleVoiceCommand (failsAt : Nat → Bool) (digest : List Email → String)
    (now : Nat) (s : MailboxStore) (transcript : String) (intent : Intent) :
    MailboxStore × VoiceResponse :=
  let commandData : InsertVoiceCommand :=
    { transcript := transcript
      intent := intent.action
      confidence := jsRound (intent.confidence * 100)
      success := intent.action != "unknown" }
  let s1 := (createVoiceCommand s now commandData).1
  match execIntent failsAt digest s1 intent with
  | .ok s2 r => (s2, .ok r)
  | .storeError s2 => (s2, .serverError)

/-- A webhook payload that passed `validatePostmarkWebhook`
(`server/lib/postmark.ts`): the five required string fields are present and
typed; the rest are optional. -/
structure PostmarkWebhookData where
  messageId : String
  fromEmail : String
  fromName : Option String := none
  toEmail : String
  subject : String
  textBody : Option String := none
  htmlBody : Option String := none
  date : String
  attachmentNames : List String := []
deriving Repr, DecidableEq

/-- The forwarding metadata recovered from a forwarded body
(`ForwardedEmailInfo` in `server/lib/postmark.ts`). -/
structure ForwardedEmailInfo where
  originalFrom : Option String := none
  originalFromName : Option String := none
  originalTo : Option String := none
  originalDate : Option String := none
  originalSubject : Option String := none
deriving Repr, DecidableEq

/-- The processed form of a webhook payload (`ProcessedEmail` in
`server/lib/postmark.ts`, minus the unused `receivedAt` — the insert schema
omits it and the store defaults it to ingestion time). -/
structure ProcessedEmail where
  messageId : String
  fromEmail : String
  fromName : Option String
  toEmail : String
  subject : String
  textContent : Option String
  htmlContent : Option String
  attachments : List String
  isForwarded : Bool
  forwardedInfo : Option ForwardedEmailInfo
  actualSenderEmail : Option String
  actualSenderName : Option String
deriving Repr, DecidableEq

/-- Embeds `isForwarded && info?.field ? info.field : fallback` for a string field. -/
def pickDisplay (fwd : Option String) (fallback : String) : String :=
  if truthyStr fwd then fwd.getD fallback else fallback

/-- Embeds `isForwarded && info?.field ? info.field : fallback` for an optional
fallback. -/
def pickDisplayOpt (fwd : Option String) (fallback : Option String) : Option String :=
  if truthyStr fwd then fwd else fallback

/-- Embeds `processPostmarkWebhook` of `server/lib/postmark.ts`, parametrized by the
regex-based `parseForwardedEmailInfo` (abstracted as `parseFwd`; no claim
depends on the regex internals).  When forwarding is detected, the original
sender/name/subject become the primary display identity and the envelope
sender moves to the `actualSender*` fields. -/
def processPostmarkWebhook (parseFwd : Option String → Option ForwardedEmailInfo)
    (d : PostmarkWebhookData) : ProcessedEmail :=
  let forwardedInfo := parseFwd d.textBody
  let isForwarded := forwardedInfo.isSome
  { messageId := d.messageId
    fromEmail := pickDisplay (forwardedInfo.bind ForwardedEmailInfo.originalFrom) d.fromEmail
    fromName := pickDisplayOpt (forwardedInfo.bind ForwardedEmailInfo.originalFromName) d.fromName
    toEmail := d.toEmail
    subject := pickDisplay (forwardedInfo.bind ForwardedEmailInfo.originalSubject) d.subject
    textContent := d.textBody
    htmlContent := d.htmlBody
    attachments := d.attachmentNames
    isForwarded := isForwarded
    forwardedInfo := forwardedInfo
    actualSenderEmail := if isForwarded then some d.fromEmail else none
    actualSenderName := if isForwarded then d.fromName else none }

/-- The HTTP-level outcome of the `/api/webhooks/postmark` route (both 200). -/
inductive IngestResponse where
  | alreadyProcessed
  | created (emailId : Nat)
deriving Repr, DecidableEq

/-- The `insertEmailSchema.parse` payload the webhook route assembles from a
processed email (`emailData` in `server/routes.ts`). -/
def webhookInsertEmail (parseFwd : Option String → Option ForwardedEmailInfo)
    (d : PostmarkWebhookData) : InsertEmail :=
  let processedEmail := processPostmarkWebhook parseFwd d
  { messageId := processedEmail.messageId
    fromEmail := processedEmail.fromEmail
    fromName := processedEmail.fromName
    toEmail := processedEmail.toEmail
    subject := processedEmail.subject
    textContent := processedEmail.textContent
    htmlContent := processedEmail.htmlContent
    attachments := processedEmail.attachments
    isForwarded := processedEmail.isForwarded
    originalFrom := processedEmail.forwardedInfo.bind ForwardedEmailInfo.originalFrom
    originalFromName := processedEmail.forwardedInfo.bind ForwardedEmailInfo.originalFromName
    originalTo := processedEmail.forwardedInfo.bind ForwardedEmailInfo.originalTo
    originalDate := processedEmail.forwardedInfo.bind ForwardedEmailInfo.originalDate
    originalSubject := processedEmail.forwardedInfo.bind ForwardedEmailInfo.originalSubject }

/-- The `/api/webhooks/postmark` route body for a validated payload
(`server/routes.ts`): process the payload, answer a no-op 200 when an email
with the same `messageId` already exists, otherwise insert a new row. -/
def ingestPostmarkWebhook (parseFwd : Option String → Option ForwardedEmailInfo)
    (now : Nat) (s : MailboxStore) (d : PostmarkWebhookData) :
    MailboxStore × IngestResponse :=
  let processedEmail := processPostmarkWebhook parseFwd d
  match getEmailByMessageId s processedEmail.messageId with
  | some _ => (s, .alreadyProcessed)
  | none =>
    let (s1, e) := createEmail s now (webhookInsertEmail parseFwd d)
    (s1, .created e.id)

/-- The raw subscription data returned by the TTS provider's quota endpoint
(`data.character_count` / `data.character_limit`, each possibly absent). -/
structure QuotaData where
  characterCount : Option Nat := none
  characterLimit : Option Nat := none
deriving Repr, DecidableEq

/-- The cached quota view (`VoiceQuotaInfo` in `server/lib/voice-manager.ts`).
`charactersRemaining` is a plain JavaScript subtraction, so it may be
negative. -/
structure VoiceQuotaInfo where
  charactersUsed : Nat
  charactersLimit : Nat
  charactersRemaining : Int
  lastChecked : Nat
deriving Repr, DecidableEq

/-- The mutable state of the `VoiceManager` singleton: the cached quota. -/
structure VoiceManagerState where
  quotaInfo : Option VoiceQuotaInfo := none
deriving Repr, DecidableEq

/-- The environment a speech request runs in: the configured credential, what
a quota fetch would return (`none` = network failure or non-OK response), and
what the premium provider call would do. -/
structure TtsEnv where
  apiKey : Option String := none
  fetchQuota : Option QuotaData := none
  provider : Except Unit (List Nat) := .error ()
deriving Repr

/-- The network calls a speech request performs. -/
inductive NetCall where
  | quotaFetch
  | ttsCall
deriving Repr, DecidableEq

/-- The 5-minute quota cache TTL (`quotaCacheTime`). -/
def quotaCacheTime : Nat := 5 * 60 * 1000

/-- Embeds `checkQuotaStatus` of `server/lib/voice-manager.ts`: without a credential
return nothing immediately (no network); otherwise serve a fresh cache hit,
or fetch and replace the cache on success; a failed fetch leaves the cache
and returns nothing.  Also returns the network calls performed. -/
def checkQuotaStatus (env : TtsEnv) (now : Nat) (st : VoiceManagerState) :
    VoiceManagerState × Option VoiceQuotaInfo × List NetCall :=
  if !truthyStr env.apiKey then (st, none, [])
  else
    let cacheHit := match st.quotaInfo with
      | some qi => if now - qi.lastChecked < quotaCacheTime then some qi else none
      | none => none
    match cacheHit with
    | some qi => (st, some qi, [])
    | none =>
      match env.fetchQuota with
      | some data =>
        let used := natOr data.characterCount 0
        let limit := natOr data.characterLimit 10000
        let qi : VoiceQuotaInfo :=
          { charactersUsed := used
            charactersLimit := limit
            charactersRemaining := (limit : Int) - (used : Int)
            lastChecked := now }
        ({ quotaInfo := some qi }, some qi, [NetCall.quotaFetch])
      | none => (st, none, [NetCall.quotaFetch])

/-- Embeds `Math.ceil(textLength * 1.1)`: the conservative character requirement
with the 10% safety buffer, as an exact rational ceiling. -/
def requiredChars (textLength : Nat) : Nat :=
  (11 * textLength + 9) / 10

/-- Embeds `canHandleRequest` of `server/lib/voice-manager.ts`: unknown quota means
no; otherwise compare the remaining capacity against the buffered
requirement. -/
def canHandleRequest (env : TtsEnv) (now : Nat) (st : VoiceManagerState)
    (textLength : Nat) : VoiceManagerState × Bool × List NetCall :=
  let (st1, quota, calls) := checkQuotaStatus env now st
  match quota with
  | none => (st1, false, calls)
  | some qi => (st1, decide ((requiredChars textLength : Int) ≤ qi.charactersRemaining), calls)

/-- The value `generateSpeechWithFallback` resolves with. -/
structure SpeechResult where
  success : Bool
  audioBuffer : Option (List Nat) := none
  useWebSpeech : Option Bool := none
  message : Option String := none
deriving Repr, DecidableEq

/-- Embeds `generateSpeechWithFallback` of `server/lib/voice-manager.ts`: when the
premium provider cannot be used (no credential, unknown quota, or
insufficient remaining capacity) return the local-synthesis directive without
calling it; otherwise call it, and on a provider error catch it and return
the same directive instead of propagating. -/
def generateSpeechWithFallback (env : TtsEnv) (now : Nat) (st : VoiceManagerState)
    (text : String) : VoiceManagerState × SpeechResult × List NetCall :=
  let (st1, canUseElevenLabs, calls) := canHandleRequest env now st text.length
  if !canUseElevenLabs then
    (st1, { success := true, useWebSpeech := some true
            message := some ("Using browser speech synthesis due to service quota limitations") },
      calls)
  else
    match env.provider with
    | .ok audioBuffer =>
      (st1, { success := true, audioBuffer := some audioBuffer }, calls ++ [NetCall.ttsCall])
    | .error _ =>
      (st1, { success := true, useWebSpeech := some true
              message := some ("Using browser speech synthesis due to service limitations") },
        calls ++ [NetCall.ttsCall])

/-! ### Store lemmas -/

theorem applyUpdate_id (u : EmailUpdate) (e : Email) : (applyUpdate u e).id = e.id := rfl

theorem applyUpdate_applyUpdate (u : EmailUpdate) (e : Email) :
    applyUpdate u (applyUpdate u e) = applyUpdate u e := by
  cases e
  simp only [applyUpdate]
  cases u.isRead <;> cases u.isImportant <;> cases u.isDeleted <;> rfl

theorem updateEmail_fst (s : MailboxStore) (id : Nat) (u : EmailUpdate) :
    (updateEmail s id u).1 =
      { s with emails := s.emails.map (fun e => if e.id == id then applyUpdate u e else e) } := by
  cases h : s.emails.find? (fun e => e.id == id) with
  | none =>
    have h' := List.find?_eq_none.mp h
    have hmap : s.emails.map (fun e => if e.id == id then applyUpdate u e else e) = s.emails := by
      have hpt : ∀ e ∈ s.emails, (if e.id == id then applyUpdate u e else e) = e := by
        intro e he
        have := h' e he
        simp only [Bool.not_eq_true] at this
        simp [this]
      calc s.emails.map (fun e => if e.id == id then applyUpdate u e else e)
          = s.emails.map (fun e => e) := List.map_congr_left hpt
        _ = s.emails := by simp
    simp only [updateEmail, h]
    rw [hmap]
  | some e => simp only [updateEmail, h]

theorem updateEmail_voiceCommands (s : MailboxStore) (id : Nat) (u : EmailUpdate) :
    (updateEmail s id u).1.voiceCommands = s.voiceCommands := by
  rw [updateEmail_fst]

theorem deleteEmail_voiceCommands (s : MailboxStore) (id : Nat) :
    (deleteEmail s id).1.voiceCommands = s.voiceCommands := by
  unfold deleteEmail
  split <;> rfl

theorem runBulkUpdates_voiceCommands (f : Nat → Bool) (u : EmailUpdate)
    (ts : List Email) (s : MailboxStore) (n : Nat) :
    (runBulkUpdates f u s n ts).1.voiceCommands = s.voiceCommands := by
  induction ts generalizing s n with
  | nil => rfl
  | cons t ts ih =>
    unfold runBulkUpdates
    split
    · rfl
    · rw [ih, updateEmail_voiceCommands]

theorem runBulkDeletes_voiceCommands (f : Nat → Bool)
    (ts : List Email) (s : MailboxStore) (n : Nat) :
    (runBulkDeletes f s n ts).1.voiceCommands = s.voiceCommands := by
  induction ts generalizing s n with
  | nil => rfl
  | cons t ts ih =>
    unfold runBulkDeletes
    split
    · rfl
    · rw [ih, deleteEmail_voiceCommands]

theorem store_ok_eq (s : MailboxStore) (r : CommandResult) :
    (DispatchOutcome.ok s r).store = s := rfl

theorem store_err_eq (s : MailboxStore) :
    (DispatchOutcome.storeError s).store = s := rfl

/-- The dispatcher never writes to the voice-command log: whatever the
action, parameters and store behaviour, the log after dispatch is the log
before. -/
theorem execIntent_voiceCommands (f : Nat → Bool) (dg : List Email → String)
    (s : MailboxStore) (i : Intent) :
    (execIntent f dg s i).store.voiceCommands = s.voiceCommands := by
  unfold execIntent
  repeat' split
  all_goals
    simp_all [apply_ite DispatchOutcome.store,
      apply_ite MailboxStore.voiceCommands, store_ok_eq, store_err_eq,
      runBulkUpdates_voiceCommands,
      runBulkDeletes_voiceCommands, updateEmail_voiceCommands]
  all_goals
    intros
    split <;> simp [store_ok_eq, store_err_eq, updateEmail_voiceCommands]

theorem runBulkUpdates_noFail_emails (u : EmailUpdate) (ts : List Email)
    (s : MailboxStore) (n : Nat) :
    (runBulkUpdates noFail u s n ts).1.emails =
      s.emails.map (fun x => if ts.any (fun t => x.id == t.id) then applyUpdate u x else x) := by
  induction ts generalizing s n with
  | nil => simp [runBulkUpdates]
  | cons t ts ih =>
    rw [runBulkUpdates]
    simp only [noFail, Bool.false_eq_true, if_false]
    rw [ih, updateEmail_fst]
    simp only []
    rw [List.map_map]
    apply List.map_congr_left
    intro x _
    simp only [Function.comp]
    by_cases hx : x.id == t.id
    · simp only [hx, if_pos]
      have hid : (applyUpdate u x).id = x.id := applyUpdate_id u x
      by_cases hany : ts.any (fun t' => x.id == t'.id)
      · simp [hid, hany, applyUpdate_applyUpdate, List.any_cons, hx]
      · simp [hid, hany, List.any_cons, hx]
    · simp only [hx, if_neg]
      simp [List.any_cons, hx]



/-- Well-formedness of a store: row ids are pairwise distinct. -/
def storeWf (s : MailboxStore) : Prop := (s.emails.map Email.id).Nodup

theorem any_id_sortedFilter (s : MailboxStore) (hwf : storeWf s) (p : Email → Bool)
    (x : Email) (hx : x ∈ s.emails) :
    ((s.emails.filter p).mergeSort byReceivedAtDesc).any (fun t => x.id == t.id) = p x := by
  cases hp : p x with
  | true =>
    apply List.any_eq_true.mpr
    exact ⟨x, List.mem_mergeSort.mpr (List.mem_filter.mpr ⟨hx, hp⟩), by simp⟩
  | false =>
    apply List.any_eq_false.mpr
    intro t ht
    have ht' := List.mem_filter.mp (List.mem_mergeSort.mp ht)
    intro hbeq
    have heq : x.id = t.id := by simpa using hbeq
    have : x = t := List.inj_on_of_nodup_map hwf hx ht'.1 heq
    rw [this, ht'.2] at hp
    exact absurd hp (by simp)

theorem runBulk_filter_emails (s : MailboxStore) (hwf : storeWf s)
    (p : Email → Bool) (u : EmailUpdate) :
    (runBulkUpdates noFail u s 0 ((s.emails.filter p).mergeSort byReceivedAtDesc)).1.emails =
      s.emails.map (fun x => if p x then applyUpdate u x else x) := by
  rw [runBulkUpdates_noFail_emails]
  apply List.map_congr_left
  intro x hx
  rw [any_id_sortedFilter s hwf p x hx]



theorem byReceivedAtDesc_trans (a b c : Email) :
    byReceivedAtDesc a b → byReceivedAtDesc b c → byReceivedAtDesc a c := by
  simp only [byReceivedAtDesc, decide_eq_true_eq]
  omega

theorem byReceivedAtDesc_total (a b : Email) :
    byReceivedAtDesc a b || byReceivedAtDesc b a := by
  simp only [byReceivedAtDesc, Bool.or_eq_true, decide_eq_true_eq]
  omega

theorem getEmails_no_limit (s : MailboxStore) (f : EmailFilters)
    (hl : f.limit = none) (ho : f.offset = 0) :
    getEmails s f = (s.emails.filter (matchesFilters f)).mergeSort byReceivedAtDesc := by
  simp [getEmails, hl, ho]

theorem getEmails_limit (s : MailboxStore) (f : EmailFilters) (n : Nat)
    (hl : f.limit = some n) (ho : f.offset = 0) :
    getEmails s f =
      ((s.emails.filter (matchesFilters f)).mergeSort byReceivedAtDesc).take n := by
  simp [getEmails, hl, ho]

/-- When the most-recent lookup (`limit: 1`) returns an email, it is a
matching email of the store whose `receivedAt` is maximal among matches. -/
theorem getEmails_limit_one_spec (s : MailboxStore) (f : EmailFilters)
    (hl : f.limit = some 1) (ho : f.offset = 0) (e : Email) (rest : List Email)
    (h : getEmails s f = e :: rest) :
    e ∈ s.emails ∧ matchesFilters f e = true ∧
      ∀ x ∈ s.emails, matchesFilters f x = true → x.receivedAt ≤ e.receivedAt := by
  rw [getEmails_limit s f 1 hl ho] at h
  set sorted := (s.emails.filter (matchesFilters f)).mergeSort byReceivedAtDesc with hs
  have hsorted : sorted.Pairwise (fun a b => byReceivedAtDesc a b) :=
    List.sorted_mergeSort byReceivedAtDesc_trans byReceivedAtDesc_total _
  cases hcase : sorted with
  | nil => rw [hcase] at h; simp at h
  | cons e' rest' =>
    rw [hcase] at h
    simp only [List.take_succ_cons, List.take_zero] at h
    have he : e' = e := by
      have := congrArg (fun l => List.head? l) h
      simpa using this
    subst he
    have hmem : e' ∈ sorted := by
      rw [hcase]
      exact List.mem_cons_self _ _
    rw [hs] at hmem
    have hmemf := List.mem_filter.mp (List.mem_mergeSort.mp hmem)
    refine ⟨hmemf.1, hmemf.2, ?_⟩
    intro x hx hfx
    have hxs : x ∈ sorted := by
      rw [hs]
      exact List.mem_mergeSort.mpr (List.mem_filter.mpr ⟨hx, hfx⟩)
    rw [hcase] at hxs
    rcases List.mem_cons.mp hxs with hxe | hxr
    · rw [hxe]
    · have hp := (List.pairwise_cons.mp (hcase ▸ hsorted)).1 x hxr
      simpa [byReceivedAtDesc] using hp



theorem mergeSort_eq_nil_iff (l : List Email) (le : Email → Email → Bool) :
    l.mergeSort le = [] ↔ l = [] := by
  constructor
  · intro h
    have hlen : (l.mergeSort le).length = l.length := List.length_mergeSort l
    rw [h] at hlen
    exact List.length_eq_zero.mp hlen.symm
  · intro h
    rw [h]
    simp

/-- A failing store truncates a bulk update loop: if the store throws on the
k-th update call, the result is exactly the store obtained by applying only
the first k updates, and the loop reports failure. -/
theorem runBulkUpdates_failAt (u : EmailUpdate) (ts : List Email)
    (s : MailboxStore) (n k : Nat) (hk : k < ts.length) :
    runBulkUpdates (fun m => m == n + k) u s n ts =
      ((runBulkUpdates noFail u s n (ts.take k)).1, false) := by
  induction ts generalizing s n k with
  | nil => simp at hk
  | cons t ts ih =>
    cases k with
    | zero =>
      simp [runBulkUpdates, noFail]
    | succ k =>
      have hne : (n == n + (k + 1)) = false := by simp
      have harith : n + (k + 1) = (n + 1) + k := by omega
      rw [runBulkUpdates, hne]
      simp only [Bool.false_eq_true, if_false]
      rw [harith]
      rw [ih _ _ _ (by simpa using hk)]
      rw [List.take_succ_cons, runBulkUpdates]
      simp [noFail]

theorem map_ite_update_map_id (l : List Email) (c : Email → Bool) (u : EmailUpdate) :
    (l.map (fun x => if c x then applyUpdate u x else x)).map Email.id = l.map Email.id := by
  rw [List.map_map]
  apply List.map_congr_left
  intro x _
  by_cases h : c x <;> simp [h, Function.comp, applyUpdate_id]

theorem matchesFilters_unread (l : Option Nat) (o : Nat) (e : Email) :
    matchesFilters { isRead := some false, isDeleted := some false, limit := l, offset := o } e
      = (!e.isRead && !e.isDeleted) := by
  simp only [matchesFilters]
  cases hr : e.isRead <;> cases hd : e.isDeleted <;> simp [hr, hd]

theorem matchesFilters_nondeleted (l : Option Nat) (o : Nat) (e : Email) :
    matchesFilters { isDeleted := some false, limit := l, offset := o } e = !e.isDeleted := by
  simp only [matchesFilters]
  cases hd : e.isDeleted <;> simp [hd]

theorem matchesFilters_important (l : Option Nat) (o : Nat) (e : Email) :
    matchesFilters { isImportant := some true, isDeleted := some false, limit := l, offset := o } e
      = (e.isImportant && !e.isDeleted) := by
  simp only [matchesFilters]
  cases hi : e.isImportant <;> cases hd : e.isDeleted <;> simp [hi, hd]

theorem matchesFilters_deleted (l : Option Nat) (o : Nat) (e : Email) :
    matchesFilters { isDeleted := some true, limit := l, offset := o } e = e.isDeleted := by
  simp only [matchesFilters]
  cases hd : e.isDeleted <;> simp [hd]

/-! ### Claim theorems (part 1) -/

/-- Claim C2 counterexample: an empty provider response (empty content or the
empty JSON object) yields `{action: "unknown"}` with confidence `0.5`, not
`0` as the claim states (`result.confidence || 0.5` defaults before
clamping). -/
theorem C2_counterexample :
    (processVoiceCommand (.parsed emptyRawResult)).action = "unknown" ∧
    (processVoiceCommand (.parsed emptyRawResult)).confidence = 1 / 2 ∧
    ¬ (processVoiceCommand (.parsed emptyRawResult)).confidence = 0 := by
  refine ⟨rfl, ?_, ?_⟩ <;>
    norm_num [processVoiceCommand, emptyRawResult, ratOr, jsMax, jsMin]

/-- Claim C2 (amended): the resolver clamps every parsed confidence into
`[0, 1]` (raw `1.7` gives `1`, raw `-0.3` gives `0`); a provider error or a
malformed (unparseable) response yields `{action: "unknown", confidence: 0}`
without raising; an empty provider response yields action `unknown` with
confidence `0.5`, not `0`. -/
theorem C2_theorem :
    (∀ r : RawIntentResult, 0 ≤ (processVoiceCommand (.parsed r)).confidence ∧
        (processVoiceCommand (.parsed r)).confidence ≤ 1) ∧
    (processVoiceCommand (.parsed { confidence := some ((17 : Rat) / 10) })).confidence = 1 ∧
    (processVoiceCommand (.parsed { confidence := some (-((3 : Rat) / 10)) })).confidence = 0 ∧
    processVoiceCommand .apiError = { action := "unknown", parameters := none, confidence := 0 } ∧
    processVoiceCommand .malformed = { action := "unknown", parameters := none, confidence := 0 } ∧
    processVoiceCommand (.parsed emptyRawResult) =
      { action := "unknown", parameters := some {}, confidence := 1 / 2 } := by
  refine ⟨?_, ?_, ?_, rfl, rfl, ?_⟩
  · intro r
    simp only [processVoiceCommand]
    unfold jsMax jsMin
    split_ifs with h1 h2 h3 <;> constructor <;> linarith
  · norm_num [processVoiceCommand, ratOr, jsMax, jsMin]
  · norm_num [processVoiceCommand, ratOr, jsMax, jsMin]
  · simp only [processVoiceCommand, emptyRawResult]
    norm_num [ratOr, jsMax, jsMin, strOr]

/-- Claim C10: for every voice command, exactly one VoiceCommandLog record is
appended before dispatch runs, with confidence `round(confidence * 100)` and
success `action != "unknown"`; this holds for every store behaviour during
dispatch (including store errors), so the logged success flag reflects only
intent resolution, never the store operations. -/
theorem C10_theorem (f : Nat → Bool) (dg : List Email → String) (now : Nat)
    (s : MailboxStore) (transcript : String) (intent : Intent) :
    (handleVoiceCommand f dg now s transcript intent).1.voiceCommands =
      s.voiceCommands ++
        [{ id := s.currentVoiceCommandId
           transcript := transcript
           intent := intent.action
           confidence := jsRound (intent.confidence * 100)
           executedAt := now
           success := intent.action != "unknown" }] := by
  unfold handleVoiceCommand
  have hfst : ∀ s0 : MailboxStore,
      (match execIntent f dg s0 intent with
        | .ok s2 r => (s2, VoiceResponse.ok r)
        | .storeError s2 => (s2, VoiceResponse.serverError)).1
        = (execIntent f dg s0 intent).store := by
    intro s0
    cases execIntent f dg s0 intent <;> rfl
  rw [hfst, execIntent_voiceCommands]
  rfl

/-- Claim C9: `mark_as_read` with a numeric `emailId` that matches no stored
email leaves the store unchanged yet still answers with the success summary
"Done! Marked that email as read." — the point-update result is never
checked. -/
theorem C9_theorem (dg : List Email → String) (s : MailboxStore) (n : Nat) (c : Rat)
    (hn : n ≠ 0) (habsent : ∀ e ∈ s.emails, e.id ≠ n) :
    execIntent noFail dg s
        { action := "mark_as_read", parameters := some { emailId := some n }, confidence := c }
      = .ok s { intent := { action := "mark_as_read", parameters := some { emailId := some n },
                            confidence := c }
                summary := some ("Done! Marked that email as read.") } := by
  have hf : s.emails.find? (fun e => e.id == n) = none :=
    List.find?_eq_none.mpr (fun e he => by simpa using habsent e he)
  simp [execIntent, truthyBool, truthyNat, hn, updateEmail, hf, noFail]

def w9Store : MailboxStore :=
  { emails := [{ id := 1, messageId := "w9", fromEmail := "x@y.z", isRead := false }]
    currentEmailId := 2 }

theorem C9_witness :
    execIntent noFail (fun _ => "") w9Store
        { action := "mark_as_read", parameters := some { emailId := some 2 }, confidence := 1 }
      = .ok w9Store { intent := { action := "mark_as_read", parameters := some { emailId := some 2 },
                                  confidence := 1 }
                      summary := some ("Done! Marked that email as read.") } :=
  C9_theorem (fun _ => "") w9Store 2 1 (by decide) (by decide)

theorem processPostmarkWebhook_messageId
    (pf : Option String → Option ForwardedEmailInfo) (d : PostmarkWebhookData) :
    (processPostmarkWebhook pf d).messageId = d.messageId := rfl

/-- Claim C7: ingestion is idempotent on `messageId`: a payload whose
`messageId` already exists is answered as a no-op success with the store
untouched, and ingesting the same payload twice from a state without that
`messageId` stores exactly one matching Email. -/
theorem C7_theorem (pf : Option String → Option ForwardedEmailInfo) (now1 now2 : Nat)
    (s : MailboxStore) (d : PostmarkWebhookData) :
    ((getEmailByMessageId s d.messageId).isSome = true →
      ingestPostmarkWebhook pf now1 s d = (s, .alreadyProcessed)) ∧
    (s.emails.countP (fun e => e.messageId == d.messageId) = 0 →
      (ingestPostmarkWebhook pf now2 (ingestPostmarkWebhook pf now1 s d).1 d).1 =
        (ingestPostmarkWebhook pf now1 s d).1 ∧
      (ingestPostmarkWebhook pf now2 (ingestPostmarkWebhook pf now1 s d).1 d).2 =
        .alreadyProcessed ∧
      (ingestPostmarkWebhook pf now1 s d).1.emails.countP
          (fun e => e.messageId == d.messageId) = 1) := by
  constructor
  · intro hsome
    cases hfind : getEmailByMessageId s d.messageId with
    | none => rw [hfind] at hsome; simp at hsome
    | some e =>
      simp only [ingestPostmarkWebhook, processPostmarkWebhook_messageId, hfind]
  · intro hcount
    have hnone : getEmailByMessageId s d.messageId = none := by
      unfold getEmailByMessageId
      apply List.find?_eq_none.mpr
      intro e he
      have := (List.countP_eq_zero.mp hcount) e he
      simpa using this
    have h1 : ingestPostmarkWebhook pf now1 s d =
        ((createEmail s now1 (webhookInsertEmail pf d)).1,
          .created (createEmail s now1 (webhookInsertEmail pf d)).2.id) := by
      simp only [ingestPostmarkWebhook, processPostmarkWebhook_messageId, hnone]
    have hs1emails : (createEmail s now1 (webhookInsertEmail pf d)).1.emails =
        s.emails ++ [(createEmail s now1 (webhookInsertEmail pf d)).2] := rfl
    have hmsg : (createEmail s now1 (webhookInsertEmail pf d)).2.messageId = d.messageId := rfl
    have hfind1 : getEmailByMessageId (createEmail s now1 (webhookInsertEmail pf d)).1
        d.messageId = some (createEmail s now1 (webhookInsertEmail pf d)).2 := by
      unfold getEmailByMessageId
      rw [hs1emails, List.find?_append]
      have : s.emails.find? (fun e => e.messageId == d.messageId) = none := hnone
      rw [this]
      simp [hmsg]
    have h2 : ingestPostmarkWebhook pf now2 (createEmail s now1 (webhookInsertEmail pf d)).1 d =
        ((createEmail s now1 (webhookInsertEmail pf d)).1, .alreadyProcessed) := by
      simp only [ingestPostmarkWebhook, processPostmarkWebhook_messageId, hfind1]
    rw [h1]
    refine ⟨by rw [h2], by rw [h2], ?_⟩
    rw [hs1emails, List.countP_append]
    rw [List.countP_eq_zero.mpr (fun e he => by
      have := (List.countP_eq_zero.mp hcount) e he
      simpa using this)]
    simp [List.countP, List.countP.go, hmsg]



def w7Payload : PostmarkWebhookData :=
  { messageId := "pm-1", fromEmail := "a@b.c", toEmail := "in@x.y",
    subject := "hello", date := "2025-01-01" }

def w7Store : MailboxStore :=
  { emails := [{ id := 1, messageId := "pm-1", fromEmail := "a@b.c" }], currentEmailId := 2 }

theorem C7_witness :
    ingestPostmarkWebhook (fun _ => none) 5 w7Store w7Payload = (w7Store, .alreadyProcessed) ∧
    ((ingestPostmarkWebhook (fun _ => none) 7
        (ingestPostmarkWebhook (fun _ => none) 5 {} w7Payload).1 w7Payload).1 =
      (ingestPostmarkWebhook (fun _ => none) 5 ({} : MailboxStore) w7Payload).1 ∧
      (ingestPostmarkWebhook (fun _ => none) 5 ({} : MailboxStore) w7Payload).1.emails.countP
        (fun e => e.messageId == w7Payload.messageId) = 1) :=
  ⟨(C7_theorem (fun _ => none) 5 7 w7Store w7Payload).1 (by decide),
   ⟨((C7_theorem (fun _ => none) 5 7 {} w7Payload).2 (by decide)).1,
    ((C7_theorem (fun _ => none) 5 7 {} w7Payload).2 (by decide)).2.2⟩⟩

theorem checkQuotaStatus_no_ttsCall (env : TtsEnv) (now : Nat) (st : VoiceManagerState) :
    NetCall.ttsCall ∉ (checkQuotaStatus env now st).2.2 := by
  unfold checkQuotaStatus
  repeat' split
  all_goals simp

/-- Claim C6: speech generation degrades in three tiers converging on the
same local-synthesis directive: no credential gives the directive with no
network call at all; a credential with unknown quota or remaining capacity
below `ceil(len * 1.1)` gives the directive without calling the provider;
sufficient quota with a failing provider call catches the error and returns
the directive instead of propagating. -/
theorem C6_theorem (env : TtsEnv) (now : Nat) (st : VoiceManagerState) (text : String) :
    (¬ truthyStr env.apiKey = true →
      generateSpeechWithFallback env now st text =
        (st, { success := true, useWebSpeech := some true
               message := some ("Using browser speech synthesis due to service quota limitations") },
          [])) ∧
    ((checkQuotaStatus env now st).2.1 = none ∨
        (∃ qi, (checkQuotaStatus env now st).2.1 = some qi ∧
          qi.charactersRemaining < (requiredChars text.length : Int)) →
      (generateSpeechWithFallback env now st text).2.1.useWebSpeech = some true ∧
      (generateSpeechWithFallback env now st text).2.1.audioBuffer = none ∧
      NetCall.ttsCall ∉ (generateSpeechWithFallback env now st text).2.2) ∧
    (∀ qi, (checkQuotaStatus env now st).2.1 = some qi →
      (requiredChars text.length : Int) ≤ qi.charactersRemaining →
      env.provider = .error () →
      (generateSpeechWithFallback env now st text).2.1.useWebSpeech = some true ∧
      (generateSpeechWithFallback env now st text).2.1.audioBuffer = none) := by
  have hnotts := checkQuotaStatus_no_ttsCall env now st
  rcases hq : checkQuotaStatus env now st with ⟨st1, q, calls⟩
  rw [hq] at hnotts
  simp only at hnotts
  refine ⟨?_, ?_, ?_⟩
  · intro hkey
    have hqnil : checkQuotaStatus env now st = (st, none, []) := by
      unfold checkQuotaStatus
      simp [hkey]
    unfold generateSpeechWithFallback canHandleRequest
    rw [hqnil]
    rfl
  · intro hcase
    have hqval : q = none ∨
        ∃ qi, q = some qi ∧ qi.charactersRemaining < (requiredChars text.length : Int) := by
      rcases hcase with hnone | ⟨qi, hqi, hlt⟩
      · simp only at hnone
        exact .inl hnone
      · simp only at hqi
        exact .inr ⟨qi, hqi, hlt⟩
    unfold generateSpeechWithFallback canHandleRequest
    rw [hq]
    rcases hqval with rfl | ⟨qi, rfl, hlt⟩
    · exact ⟨rfl, rfl, hnotts⟩
    · have hd : decide ((requiredChars text.length : Int) ≤ qi.charactersRemaining) = false := by
        simp
        omega
      simp only [hd]
      exact ⟨rfl, rfl, hnotts⟩
  · intro qi hqi hle hprov
    simp only at hqi
    subst hqi
    unfold generateSpeechWithFallback canHandleRequest
    rw [hq]
    have hd : decide ((requiredChars text.length : Int) ≤ qi.charactersRemaining) = true := by
      simpa using hle
    simp only [hd, hprov]
    exact ⟨rfl, rfl⟩


def w6env1 : TtsEnv := {}

def w6env2 : TtsEnv :=
  { apiKey := some "k"
    fetchQuota := some { characterCount := some 9999, characterLimit := some 10000 } }

def w6env3 : TtsEnv :=
  { apiKey := some "k"
    fetchQuota := some { characterCount := some 9000, characterLimit := some 10000 } }

theorem C6_witness :
    generateSpeechWithFallback w6env1 0 {} ("hello") =
      ({}, { success := true, useWebSpeech := some true
             message := some ("Using browser speech synthesis due to service quota limitations") },
        []) ∧
    ((generateSpeechWithFallback w6env2 0 {} ("hello")).2.1.useWebSpeech = some true ∧
      (generateSpeechWithFallback w6env2 0 {} ("hello")).2.1.audioBuffer = none ∧
      NetCall.ttsCall ∉ (generateSpeechWithFallback w6env2 0 {} ("hello")).2.2) ∧
    ((generateSpeechWithFallback w6env3 0 {} ("hello")).2.1.useWebSpeech = some true ∧
      (generateSpeechWithFallback w6env3 0 {} ("hello")).2.1.audioBuffer = none) :=
  ⟨(C6_theorem w6env1 0 {} ("hello")).1 (by decide),
   (C6_theorem w6env2 0 {} ("hello")).2.1 (.inr ⟨_, rfl, by decide⟩),
   (C6_theorem w6env3 0 {} ("hello")).2.2 _ rfl (by decide) rfl⟩

theorem searchEmails_not_deleted (s : MailboxStore) (q : String) :
    ∀ e ∈ searchEmails s q, e.isDeleted = false := by
  intro e he
  have h := (List.mem_filter.mp (List.mem_mergeSort.mp he)).2
  simp only [Bool.and_eq_true, Bool.not_eq_true'] at h
  exact h.1

theorem restoreQuery_noop (dg : List Email → String) (s : MailboxStore) (q : String) (c : Rat)
    (hq : q ≠ "") :
    execIntent noFail dg s
        { action := "restore_emails", parameters := some { query := some q }, confidence := c }
      = .ok s { intent := { action := "restore_emails", parameters := some { query := some q },
                            confidence := c }
                summary := some ("Restored 0 archived emails matching \"" ++ q ++
                  "\" back to your inbox.") } := by
  have hnil : (searchEmails s q).filter (fun e => e.isDeleted) = [] :=
    List.filter_eq_nil_iff.mpr (fun e he => by simp [searchEmails_not_deleted s q e he])
  simp [execIntent, truthyBool, truthyNat, truthyStr, hq, hnil, runBulkUpdates]
  rfl

def cex1Email : Email :=
  { id := 1, messageId := "m1", fromEmail := "alice@example.com"
    subject := "quarterly report", textContent := some ("the report body")
    receivedAt := 100, isRead := true, isDeleted := true }

def cex1Store : MailboxStore := { emails := [cex1Email], currentEmailId := 2 }

/-- Claim C1 (failing input): a store holding one archived email whose
subject and body match "report"; `restore_emails{query:"report"}` restores
nothing — the store is returned unchanged and the summary reports 0 — even
though an archived matching email exists, because the archived candidates are
filtered out of `searchEmails` output, which only contains non-deleted
emails. -/
theorem C1_theorem :
    cex1Email ∈ cex1Store.emails ∧ cex1Email.isDeleted = true ∧
    emailMatchesQuery ("report") cex1Email = true ∧
    execIntent noFail (fun _ => "") cex1Store
        { action := "restore_emails", parameters := some { query := some ("report") },
          confidence := 1 }
      = .ok cex1Store
          { intent := { action := "restore_emails", parameters := some { query := some ("report") },
                        confidence := 1 }
            summary := some ("Restored 0 archived emails matching \"report\" back to your inbox.") } :=
  ⟨by decide, rfl, by decide,
   restoreQuery_noop (fun _ => "") cex1Store ("report") 1 (by decide)⟩



def cex3Email : Email :=
  { id := 1, messageId := "c3", fromEmail := "bob@example.com", receivedAt := 50, isRead := false }

def cex3Store : MailboxStore := { emails := [cex3Email], currentEmailId := 2 }

/-- Claim C3 counterexample: `mark_as_read` with no parameters does not fall
back to the most-recently-received non-deleted email: with one unread
non-deleted email in the store, dispatch returns a clarification prompt and
mutates nothing, where the claim requires the email to be marked read. -/
theorem C3_counterexample :
    cex3Email.isRead = false ∧ cex3Email.isDeleted = false ∧
    execIntent noFail (fun _ => "") cex3Store
        { action := "mark_as_read", parameters := some {}, confidence := 1 }
      = .ok cex3Store
          { intent := { action := "mark_as_read", parameters := some {}, confidence := 1 }
            summary := some ("I\x27d be happy to mark emails as read. Just let me know which ones - you can say \x27mark all as read\x27 or specify particular emails.") } :=
  ⟨rfl, rfl, rfl⟩

def cex4Email : Email :=
  { id := 1, messageId := "c4", fromEmail := "ads@example.com", subject := "spam offer"
    receivedAt := 60 }

def cex4Store : MailboxStore := { emails := [cex4Email], currentEmailId := 2 }

/-- Claim C4 counterexample: `delete_emails` has no `query` branch: with a
non-deleted email matching "spam" in the store (and `searchEmails` finding
it), `delete_emails{query:"spam"}` archives nothing and returns the
clarification prompt, where the claim requires the match to be archived. -/
theorem C4_counterexample :
    cex4Email.isDeleted = false ∧ emailMatchesQuery ("spam") cex4Email = true ∧
    searchEmails cex4Store ("spam") = [cex4Email] ∧
    execIntent noFail (fun _ => "") cex4Store
        { action := "delete_emails", parameters := some { query := some ("spam") }, confidence := 1 }
      = .ok cex4Store
          { intent := { action := "delete_emails", parameters := some { query := some ("spam") },
                        confidence := 1 }
            summary := some ("I can help you delete emails. Just specify which ones - you can say \x27delete all emails\x27 or mention specific emails.") } := by
  refine ⟨rfl, by decide, ?_, rfl⟩
  simp only [searchEmails, cex4Store, List.filter_cons, List.filter_nil]
  rw [show (!cex4Email.isDeleted && emailMatchesQuery ("spam") cex4Email) = true from by decide]
  simp

def cex5Email : Email :=
  { id := 1, messageId := "c5", fromEmail := "carol@example.com", receivedAt := 70
    isImportant := true }

def cex5Store : MailboxStore := { emails := [cex5Email], currentEmailId := 2 }

/-- Claim C5 counterexample: `mark_important{all:true}` on a store whose only
non-deleted email is already important reports "Marked all 1 emails as
important." while zero records changed (the resulting store equals the
original), so the stated count is the matched count, not the changed
count. -/
theorem C5_counterexample :
    cex5Email.isImportant = true ∧ cex5Email.isDeleted = false ∧
    execIntent noFail (fun _ => "") cex5Store
        { action := "mark_important", parameters := some { all := some true }, confidence := 1 }
      = .ok cex5Store
          { intent := { action := "mark_important", parameters := some { all := some true },
                        confidence := 1 }
            summary := some ("Marked all 1 emails as important.") } := by
  refine ⟨rfl, rfl, ?_⟩
  have hget : getEmails cex5Store { isDeleted := some false } = [cex5Email] := by
    simp only [getEmails, cex5Store, List.filter_cons, List.filter_nil]
    rw [show matchesFilters { isDeleted := some false } cex5Email = true from by decide]
    simp
  have hbulk : runBulkUpdates noFail { isImportant := some true } cex5Store 0 [cex5Email] =
      (cex5Store, true) := by decide
  simp only [execIntent, truthyBool, hget, hbulk]
  rfl

/-! ### Claim theorems (part 2) -/

theorem runBulkUpdates_noFail_completes (u : EmailUpdate) (ts : List Email)
    (s : MailboxStore) (n : Nat) :
    (runBulkUpdates noFail u s n ts).2 = true := by
  induction ts generalizing s n with
  | nil => rfl
  | cons t ts ih => simp [runBulkUpdates, noFail, ih]

theorem runBulkUpdates_noFail_map_id (u : EmailUpdate) (ts : List Email)
    (s : MailboxStore) (n : Nat) :
    (runBulkUpdates noFail u s n ts).1.emails.map Email.id = s.emails.map Email.id := by
  rw [runBulkUpdates_noFail_emails]
  exact map_ite_update_map_id s.emails _ u

theorem updateEmail_map_id (s : MailboxStore) (id : Nat) (u : EmailUpdate) :
    (updateEmail s id u).1.emails.map Email.id = s.emails.map Email.id := by
  rw [updateEmail_fst]
  exact map_ite_update_map_id s.emails _ u

theorem bulkAll_store (s : MailboxStore) (hwf : storeWf s) (f : EmailFilters)
    (hf : f.limit = none) (ho : f.offset = 0) (u : EmailUpdate) :
    (runBulkUpdates noFail u s 0 (getEmails s f)).1.emails =
      s.emails.map (fun x => if matchesFilters f x then applyUpdate u x else x) := by
  rw [getEmails_no_limit s f hf ho]
  exact runBulk_filter_emails s hwf _ u

theorem getEmails_length (s : MailboxStore) (f : EmailFilters)
    (hf : f.limit = none) (ho : f.offset = 0) :
    (getEmails s f).length = (s.emails.filter (matchesFilters f)).length := by
  rw [getEmails_no_limit s f hf ho, List.length_mergeSort]



theorem summary_ok_eq (s : MailboxStore) (r : CommandResult) :
    (DispatchOutcome.ok s r).summary = r.summary := rfl

theorem summary_err_eq (s : MailboxStore) :
    (DispatchOutcome.storeError s).summary = none := rfl

theorem emailList_ok_eq (s : MailboxStore) (r : CommandResult) :
    (DispatchOutcome.ok s r).emailList = r.emails := rfl

/-- Claim C4 (amended): `archive_emails` archives (sets `isDeleted`) every
non-deleted email on `all` and exactly the search matches on `query`;
`delete_emails` archives every non-deleted email on `all` and the single
named email on a numeric `emailId`, but has no `query` branch — a
`query`-only parameter shape yields a clarification with zero mutation.
Reported counts are the matched-set sizes, and neither action ever removes a
row (ids are preserved for every parameter shape). -/
theorem C4_theorem (dg : List Email → String) (s : MailboxStore) (hwf : storeWf s)
    (q : String) (hq : q ≠ "") (n : Nat) (hn : n ≠ 0) (c : Rat) :
    ((execIntent noFail dg s
        { action := "archive_emails", parameters := some { all := some true }, confidence := c }).store.emails
        = s.emails.map (fun e => if e.isDeleted = false then { e with isDeleted := true } else e) ∧
      (execIntent noFail dg s
        { action := "archive_emails", parameters := some { all := some true }, confidence := c }).summary
        = some ("Archived all " ++ toString (s.emails.filter (fun e => !e.isDeleted)).length ++
            " emails. Your inbox is now clean.")) ∧
    ((execIntent noFail dg s
        { action := "archive_emails", parameters := some { query := some q }, confidence := c }).store.emails
        = s.emails.map (fun e =>
            if e.isDeleted = false ∧ emailMatchesQuery q e = true then { e with isDeleted := true } else e) ∧
      (execIntent noFail dg s
        { action := "archive_emails", parameters := some { query := some q }, confidence := c }).summary
        = some ("Archived " ++
            toString (s.emails.filter (fun e => !e.isDeleted && emailMatchesQuery q e)).length ++
            " emails matching \"" ++ q ++ "\".")) ∧
    ((execIntent noFail dg s
        { action := "delete_emails", parameters := some { all := some true }, confidence := c }).store.emails
        = s.emails.map (fun e => if e.isDeleted = false then { e with isDeleted := true } else e) ∧
      (execIntent noFail dg s
        { action := "delete_emails", parameters := some { all := some true }, confidence := c }).summary
        = some (if 0 < (s.emails.filter (fun e => !e.isDeleted)).length then
            "I\x27ve deleted all " ++ toString (s.emails.filter (fun e => !e.isDeleted)).length ++
              " emails from your inbox. Your inbox is now completely clean."
          else "Your inbox is already empty - nothing to delete.")) ∧
    (execIntent noFail dg s
        { action := "delete_emails", parameters := some { query := some q }, confidence := c }
      = .ok s { intent := { action := "delete_emails", parameters := some { query := some q },
                            confidence := c }
                summary := some ("I can help you delete emails. Just specify which ones - you can say \x27delete all emails\x27 or mention specific emails.") }) ∧
    ((execIntent noFail dg s
        { action := "delete_emails", parameters := some { emailId := some n }, confidence := c }).store.emails
        = s.emails.map (fun e => if e.id = n then { e with isDeleted := true } else e) ∧
      (execIntent noFail dg s
        { action := "delete_emails", parameters := some { emailId := some n }, confidence := c }).summary
        = some ("Email deleted successfully.")) ∧
    (∀ p : IntentParams,
      (execIntent noFail dg s
        { action := "delete_emails", parameters := some p, confidence := c }).store.emails.map Email.id
          = s.emails.map Email.id ∧
      (execIntent noFail dg s
        { action := "archive_emails", parameters := some p, confidence := c }).store.emails.map Email.id
          = s.emails.map Email.id) := by
  have hlen : (getEmails s { isDeleted := some false }).length =
      (s.emails.filter (fun e => !e.isDeleted)).length := by
    rw [getEmails_length s _ rfl rfl]
    congr 1
    exact List.filter_congr (fun e _ => matchesFilters_nondeleted _ _ e)
  refine ⟨⟨?_, ?_⟩, ⟨?_, ?_⟩, ⟨?_, ?_⟩, ?_, ⟨?_, ?_⟩, ?_⟩
  · simp only [execIntent, Option.getD_some, truthyBool, runBulkUpdates_noFail_completes,
      if_true, store_ok_eq]
    rw [bulkAll_store s hwf _ rfl rfl]
    apply List.map_congr_left
    intro e _
    by_cases hd : e.isDeleted <;> simp [matchesFilters_nondeleted, hd, applyUpdate]
  · simp only [execIntent, Option.getD_some, truthyBool, runBulkUpdates_noFail_completes,
      if_true, summary_ok_eq]
    rw [hlen]
  · have htq : truthyStr (some q) = true := by simp [truthyStr, hq]
    simp only [execIntent, Option.getD_some, truthyBool, htq, runBulkUpdates_noFail_completes,
      if_true, store_ok_eq, Bool.false_eq_true, if_false]
    rw [searchEmails, runBulk_filter_emails s hwf _ _]
    apply List.map_congr_left
    intro e _
    by_cases hd : e.isDeleted <;> by_cases hm : emailMatchesQuery q e <;>
      simp [hd, hm, applyUpdate]
  · have htq : truthyStr (some q) = true := by simp [truthyStr, hq]
    simp only [execIntent, Option.getD_some, truthyBool, htq, runBulkUpdates_noFail_completes,
      if_true, summary_ok_eq, Bool.false_eq_true, if_false]
    rw [searchEmails, List.length_mergeSort]
  · simp only [execIntent, Option.getD_some, truthyBool, runBulkUpdates_noFail_completes,
      if_true, store_ok_eq]
    rw [bulkAll_store s hwf _ rfl rfl]
    apply List.map_congr_left
    intro e _
    by_cases hd : e.isDeleted <;> simp [matchesFilters_nondeleted, hd, applyUpdate]
  · simp only [execIntent, Option.getD_some, truthyBool, runBulkUpdates_noFail_completes,
      if_true, summary_ok_eq]
    rw [hlen]
  · rfl
  · have htn : truthyNat (some n) = true := by simp [truthyNat, hn]
    simp only [execIntent, Option.getD_some, truthyBool, htn, if_true, noFail,
      Bool.false_eq_true, if_false, store_ok_eq]
    rw [updateEmail_fst]
    apply List.map_congr_left
    intro e _
    by_cases he : e.id = n <;> simp [he, applyUpdate]
  · have htn : truthyNat (some n) = true := by simp [truthyNat, hn]
    simp only [execIntent, Option.getD_some, truthyBool, htn, if_true, noFail,
      Bool.false_eq_true, if_false, summary_ok_eq]
  · intro p
    constructor <;>
      (simp only [execIntent]
       repeat' split
       all_goals
         first
           | rfl
           | simp [store_ok_eq, store_err_eq, runBulkUpdates_noFail_map_id, updateEmail_map_id])


theorem getEmails_limit_one_nil (s : MailboxStore) (f : EmailFilters)
    (hl : f.limit = some 1) (ho : f.offset = 0)
    (hnil : s.emails.filter (matchesFilters f) = []) :
    getEmails s f = [] := by
  rw [getEmails_limit s f 1 hl ho, hnil]
  simp

theorem elseBranch_spec (s : MailboxStore) (f : EmailFilters)
    (hl : f.limit = some 1) (ho : f.offset = 0)
    (hne : s.emails.filter (matchesFilters f) ≠ []) :
    ∃ e rest, getEmails s f = e :: rest ∧ e ∈ s.emails ∧ matchesFilters f e = true ∧
      ∀ x ∈ s.emails, matchesFilters f x = true → x.receivedAt ≤ e.receivedAt := by
  cases hcase : getEmails s f with
  | nil =>
    exfalso
    rw [getEmails_limit s f 1 hl ho] at hcase
    cases hms : (s.emails.filter (matchesFilters f)).mergeSort byReceivedAtDesc with
    | nil =>
      exact hne ((mergeSort_eq_nil_iff _ _).mp hms)
    | cons x xs =>
      rw [hms] at hcase
      simp at hcase
  | cons e rest =>
    obtain ⟨hmem, hmf, hmax⟩ := getEmails_limit_one_spec s f hl ho e rest hcase
    exact ⟨e, rest, rfl, hmem, hmf, hmax⟩



/-- Intent constructor shorthand used by the claim theorems. -/
def mkIntent (a : String) (p : IntentParams) (c : Rat) : Intent :=
  { action := a, parameters := some p, confidence := c }

/-- The `{all: true}` parameter bag. -/
def pAll : IntentParams := { all := some true }

/-- The `{emailId: n}` parameter bag. -/
def pId (n : Nat) : IntentParams := { emailId := some n }

/-- Claim C3 (amended): for `mark_unread`, `mark_important` and
`remove_important`: `all` applies the flag to every non-deleted (for
`remove_important`, every important non-deleted) email and reports that
count; a numeric `emailId` applies it to that one email; otherwise the flag
is applied to the most-recently-received non-deleted (resp. important
non-deleted) email, or a nothing-to-do summary is returned with no mutation.
`mark_as_read` deviates: `all` targets only the unread non-deleted emails
and reports the unread count, and without `all`/`emailId` it returns a
clarification with no mutation instead of falling back to the most recent
email. -/
theorem C3_theorem (dg : List Email → String) (s : MailboxStore) (hwf : storeWf s)
    (n : Nat) (hn : n ≠ 0) (c : Rat) :
    (execIntent noFail dg s (mkIntent ("mark_as_read") {} c)
      = .ok s { intent := mkIntent ("mark_as_read") {} c
                summary := some ("I\x27d be happy to mark emails as read. Just let me know which ones - you can say \x27mark all as read\x27 or specify particular emails.") }) ∧
    ((execIntent noFail dg s (mkIntent ("mark_as_read") pAll c)).store.emails
        = s.emails.map (fun e =>
            if e.isRead = false ∧ e.isDeleted = false then { e with isRead := true } else e) ∧
      (execIntent noFail dg s (mkIntent ("mark_as_read") pAll c)).summary
        = some (if 0 < (s.emails.filter (fun e => !e.isRead && !e.isDeleted)).length then
            "Perfect! I\x27ve marked all " ++
              toString (s.emails.filter (fun e => !e.isRead && !e.isDeleted)).length ++
              " unread emails as read. Your inbox is now clean."
          else "You\x27re already all caught up - no unread emails to mark!")) ∧
    ((execIntent noFail dg s (mkIntent ("mark_as_read") (pId n) c)).store.emails
        = s.emails.map (fun e => if e.id = n then { e with isRead := true } else e) ∧
      (execIntent noFail dg s (mkIntent ("mark_as_read") (pId n) c)).summary
        = some ("Done! Marked that email as read.")) ∧
    ((execIntent noFail dg s (mkIntent ("mark_unread") pAll c)).store.emails
        = s.emails.map (fun e => if e.isDeleted = false then { e with isRead := false } else e) ∧
      (execIntent noFail dg s (mkIntent ("mark_unread") pAll c)).summary
        = some ("Marked all " ++ toString (s.emails.filter (fun e => !e.isDeleted)).length ++
            " emails as unread.")) ∧
    ((execIntent noFail dg s (mkIntent ("mark_unread") (pId n) c)).store.emails
        = s.emails.map (fun e => if e.id = n then { e with isRead := false } else e) ∧
      (execIntent noFail dg s (mkIntent ("mark_unread") (pId n) c)).summary
        = some ("Email marked as unread.")) ∧
    ((s.emails.filter (fun e => !e.isDeleted) = [] →
        execIntent noFail dg s (mkIntent ("mark_unread") {} c)
          = .ok s { intent := mkIntent ("mark_unread") {} c
                    summary := some ("No emails found to mark as unread.") }) ∧
      (s.emails.filter (fun e => !e.isDeleted) ≠ [] →
        ∃ e, e ∈ s.emails ∧ e.isDeleted = false ∧
          (∀ x ∈ s.emails, x.isDeleted = false → x.receivedAt ≤ e.receivedAt) ∧
          (execIntent noFail dg s (mkIntent ("mark_unread") {} c)).store.emails
            = s.emails.map (fun x => if x.id = e.id then { x with isRead := false } else x) ∧
          (execIntent noFail dg s (mkIntent ("mark_unread") {} c)).summary
            = some ("Most recent email marked as unread."))) ∧
    ((execIntent noFail dg s (mkIntent ("mark_important") pAll c)).store.emails
        = s.emails.map (fun e => if e.isDeleted = false then { e with isImportant := true } else e) ∧
      (execIntent noFail dg s (mkIntent ("mark_important") pAll c)).summary
        = some ("Marked all " ++ toString (s.emails.filter (fun e => !e.isDeleted)).length ++
            " emails as important.")) ∧
    ((execIntent noFail dg s (mkIntent ("mark_important") (pId n) c)).store.emails
        = s.emails.map (fun e => if e.id = n then { e with isImportant := true } else e) ∧
      (execIntent noFail dg s (mkIntent ("mark_important") (pId n) c)).summary
        = some ("Email marked as important.")) ∧
    ((s.emails.filter (fun e => !e.isDeleted) = [] →
        execIntent noFail dg s (mkIntent ("mark_important") {} c)
          = .ok s { intent := mkIntent ("mark_important") {} c
                    summary := some ("No emails found to mark as important.") }) ∧
      (s.emails.filter (fun e => !e.isDeleted) ≠ [] →
        ∃ e, e ∈ s.emails ∧ e.isDeleted = false ∧
          (∀ x ∈ s.emails, x.isDeleted = false → x.receivedAt ≤ e.receivedAt) ∧
          (execIntent noFail dg s (mkIntent ("mark_important") {} c)).store.emails
            = s.emails.map (fun x => if x.id = e.id then { x with isImportant := true } else x) ∧
          (execIntent noFail dg s (mkIntent ("mark_important") {} c)).summary
            = some ("Most recent email marked as important."))) ∧
    ((execIntent noFail dg s (mkIntent ("remove_important") pAll c)).store.emails
        = s.emails.map (fun e =>
            if e.isImportant = true ∧ e.isDeleted = false then { e with isImportant := false } else e) ∧
      (execIntent noFail dg s (mkIntent ("remove_important") pAll c)).summary
        = some ("Removed important flag from " ++
            toString (s.emails.filter (fun e => e.isImportant && !e.isDeleted)).length ++
            " emails.")) ∧
    ((execIntent noFail dg s (mkIntent ("remove_important") (pId n) c)).store.emails
        = s.emails.map (fun e => if e.id = n then { e with isImportant := false } else e) ∧
      (execIntent noFail dg s (mkIntent ("remove_important") (pId n) c)).summary
        = some ("Removed important flag from email.")) ∧
    ((s.emails.filter (fun e => e.isImportant && !e.isDeleted) = [] →
        execIntent noFail dg s (mkIntent ("remove_important") {} c)
          = .ok s { intent := mkIntent ("remove_important") {} c
                    summary := some ("No important emails found to modify.") }) ∧
      (s.emails.filter (fun e => e.isImportant && !e.isDeleted) ≠ [] →
        ∃ e, e ∈ s.emails ∧ e.isImportant = true ∧ e.isDeleted = false ∧
          (∀ x ∈ s.emails, x.isImportant = true → x.isDeleted = false →
            x.receivedAt ≤ e.receivedAt) ∧
          (execIntent noFail dg s (mkIntent ("remove_important") {} c)).store.emails
            = s.emails.map (fun x => if x.id = e.id then { x with isImportant := false } else x) ∧
          (execIntent noFail dg s (mkIntent ("remove_important") {} c)).summary
            = some ("Removed important flag from most recent important email."))) := by
  have hlenU : (getEmails s { isRead := some false, isDeleted := some false }).length =
      (s.emails.filter (fun e => !e.isRead && !e.isDeleted)).length := by
    rw [getEmails_length s _ rfl rfl]
    congr 1
    exact List.filter_congr (fun e _ => matchesFilters_unread _ _ e)
  have hlenN : (getEmails s { isDeleted := some false }).length =
      (s.emails.filter (fun e => !e.isDeleted)).length := by
    rw [getEmails_length s _ rfl rfl]
    congr 1
    exact List.filter_congr (fun e _ => matchesFilters_nondeleted _ _ e)
  have hlenI : (getEmails s { isImportant := some true, isDeleted := some false }).length =
      (s.emails.filter (fun e => e.isImportant && !e.isDeleted)).length := by
    rw [getEmails_length s _ rfl rfl]
    congr 1
    exact List.filter_congr (fun e _ => matchesFilters_important _ _ e)
  have htn : truthyNat (some n) = true := by simp [truthyNat, hn]
  refine ⟨rfl, ⟨?_, ?_⟩, ⟨?_, ?_⟩, ⟨?_, ?_⟩, ⟨?_, ?_⟩, ⟨?_, ?_⟩, ⟨?_, ?_⟩, ⟨?_, ?_⟩,
    ⟨?_, ?_⟩, ⟨?_, ?_⟩, ⟨?_, ?_⟩, ⟨?_, ?_⟩⟩
  · simp only [execIntent, mkIntent, pAll, Option.getD_some, truthyBool,
      runBulkUpdates_noFail_completes, if_true, store_ok_eq]
    rw [bulkAll_store s hwf _ rfl rfl]
    apply List.map_congr_left
    intro e _
    by_cases hr : e.isRead <;> by_cases hd : e.isDeleted <;>
      simp [matchesFilters_unread, hr, hd, applyUpdate]
  · simp only [execIntent, mkIntent, pAll, Option.getD_some, truthyBool,
      runBulkUpdates_noFail_completes, if_true, summary_ok_eq]
    rw [hlenU]
  · simp only [execIntent, mkIntent, pId, Option.getD_some, truthyBool, htn, if_true,
      noFail, Bool.false_eq_true, if_false, store_ok_eq]
    rw [updateEmail_fst]
    apply List.map_congr_left
    intro e _
    by_cases he : e.id = n <;> simp [he, applyUpdate]
  · simp only [execIntent, mkIntent, pId, Option.getD_some, truthyBool, htn, if_true,
      noFail, Bool.false_eq_true, if_false, summary_ok_eq]
  · simp only [execIntent, mkIntent, pAll, Option.getD_some, truthyBool,
      runBulkUpdates_noFail_completes, if_true, store_ok_eq]
    rw [bulkAll_store s hwf _ rfl rfl]
    apply List.map_congr_left
    intro e _
    by_cases hd : e.isDeleted <;> simp [matchesFilters_nondeleted, hd, applyUpdate]
  · simp only [execIntent, mkIntent, pAll, Option.getD_some, truthyBool,
      runBulkUpdates_noFail_completes, if_true, summary_ok_eq]
    rw [hlenN]
  · simp only [execIntent, mkIntent, pId, Option.getD_some, truthyBool, htn, if_true,
      noFail, Bool.false_eq_true, if_false, store_ok_eq]
    rw [updateEmail_fst]
    apply List.map_congr_left
    intro e _
    by_cases he : e.id = n <;> simp [he, applyUpdate]
  · simp only [execIntent, mkIntent, pId, Option.getD_some, truthyBool, htn, if_true,
      noFail, Bool.false_eq_true, if_false, summary_ok_eq]
  · intro hnil
    have hmf1 : s.emails.filter
        (matchesFilters { isDeleted := some false, limit := some 1 }) = [] := by
      rw [List.filter_congr (fun e _ => matchesFilters_nondeleted _ _ e)]
      exact hnil
    have hget : getEmails s { isDeleted := some false, limit := some 1 } = [] :=
      getEmails_limit_one_nil s _ rfl rfl hmf1
    simp only [execIntent, mkIntent, Option.getD_some, truthyBool, truthyNat, hget,
      Bool.false_eq_true, if_false]
  · intro hne
    have hne1 : s.emails.filter
        (matchesFilters { isDeleted := some false, limit := some 1 }) ≠ [] := by
      rw [List.filter_congr (fun e _ => matchesFilters_nondeleted _ _ e)]
      exact hne
    obtain ⟨e, rest, hcase, hmem, hmf, hmax⟩ := elseBranch_spec s _ rfl rfl hne1
    rw [matchesFilters_nondeleted _ _ e] at hmf
    refine ⟨e, hmem, by simpa using hmf, ?_, ?_, ?_⟩
    · intro x hx hxd
      exact hmax x hx (by rw [matchesFilters_nondeleted _ _ x]; simp [hxd])
    · simp only [execIntent, mkIntent, Option.getD_some, truthyBool, truthyNat, hcase,
        noFail, Bool.false_eq_true, if_false, store_ok_eq]
      rw [updateEmail_fst]
      apply List.map_congr_left
      intro x _
      by_cases hxe : x.id = e.id <;> simp [hxe, applyUpdate]
    · simp only [execIntent, mkIntent, Option.getD_some, truthyBool, truthyNat, hcase,
        noFail, Bool.false_eq_true, if_false, summary_ok_eq]
  · simp only [execIntent, mkIntent, pAll, Option.getD_some, truthyBool,
      runBulkUpdates_noFail_completes, if_true, store_ok_eq]
    rw [bulkAll_store s hwf _ rfl rfl]
    apply List.map_congr_left
    intro e _
    by_cases hd : e.isDeleted <;> simp [matchesFilters_nondeleted, hd, applyUpdate]
  · simp only [execIntent, mkIntent, pAll, Option.getD_some, truthyBool,
      runBulkUpdates_noFail_completes, if_true, summary_ok_eq]
    rw [hlenN]
  · simp only [execIntent, mkIntent, pId, Option.getD_some, truthyBool, htn, if_true,
      noFail, Bool.false_eq_true, if_false, store_ok_eq]
    rw [updateEmail_fst]
    apply List.map_congr_left
    intro e _
    by_cases he : e.id = n <;> simp [he, applyUpdate]
  · simp only [execIntent, mkIntent, pId, Option.getD_some, truthyBool, htn, if_true,
      noFail, Bool.false_eq_true, if_false, summary_ok_eq]
  · intro hnil
    have hmf1 : s.emails.filter
        (matchesFilters { isDeleted := some false, limit := some 1 }) = [] := by
      rw [List.filter_congr (fun e _ => matchesFilters_nondeleted _ _ e)]
      exact hnil
    have hget : getEmails s { isDeleted := some false, limit := some 1 } = [] :=
      getEmails_limit_one_nil s _ rfl rfl hmf1
    simp only [execIntent, mkIntent, Option.getD_some, truthyBool, truthyNat, hget,
      Bool.false_eq_true, if_false]
  · intro hne
    have hne1 : s.emails.filter
        (matchesFilters { isDeleted := some false, limit := some 1 }) ≠ [] := by
      rw [List.filter_congr (fun e _ => matchesFilters_nondeleted _ _ e)]
      exact hne
    obtain ⟨e, rest, hcase, hmem, hmf, hmax⟩ := elseBranch_spec s _ rfl rfl hne1
    rw [matchesFilters_nondeleted _ _ e] at hmf
    refine ⟨e, hmem, by simpa using hmf, ?_, ?_, ?_⟩
    · intro x hx hxd
      exact hmax x hx (by rw [matchesFilters_nondeleted _ _ x]; simp [hxd])
    · simp only [execIntent, mkIntent, Option.getD_some, truthyBool, truthyNat, hcase,
        noFail, Bool.false_eq_true, if_false, store_ok_eq]
      rw [updateEmail_fst]
      apply List.map_congr_left
      intro x _
      by_cases hxe : x.id = e.id <;> simp [hxe, applyUpdate]
    · simp only [execIntent, mkIntent, Option.getD_some, truthyBool, truthyNat, hcase,
        noFail, Bool.false_eq_true, if_false, summary_ok_eq]
  · simp only [execIntent, mkIntent, pAll, Option.getD_some, truthyBool,
      runBulkUpdates_noFail_completes, if_true, store_ok_eq]
    rw [bulkAll_store s hwf _ rfl rfl]
    apply List.map_congr_left
    intro e _
    by_cases hi : e.isImportant <;> by_cases hd : e.isDeleted <;>
      simp [matchesFilters_important, hi, hd, applyUpdate]
  · simp only [execIntent, mkIntent, pAll, Option.getD_some, truthyBool,
      runBulkUpdates_noFail_completes, if_true, summary_ok_eq]
    rw [hlenI]
  · simp only [execIntent, mkIntent, pId, Option.getD_some, truthyBool, htn, if_true,
      noFail, Bool.false_eq_true, if_false, store_ok_eq]
    rw [updateEmail_fst]
    apply List.map_congr_left
    intro e _
    by_cases he : e.id = n <;> simp [he, applyUpdate]
  · simp only [execIntent, mkIntent, pId, Option.getD_some, truthyBool, htn, if_true,
      noFail, Bool.false_eq_true, if_false, summary_ok_eq]
  · intro hnil
    have hmf1 : s.emails.filter
        (matchesFilters { isImportant := some true, isDeleted := some false, limit := some 1 })
        = [] := by
      rw [List.filter_congr (fun e _ => matchesFilters_important _ _ e)]
      exact hnil
    have hget : getEmails s
        { isImportant := some true, isDeleted := some false, limit := some 1 } = [] :=
      getEmails_limit_one_nil s _ rfl rfl hmf1
    simp only [execIntent, mkIntent, Option.getD_some, truthyBool, truthyNat, hget,
      Bool.false_eq_true, if_false]
  · intro hne
    have hne1 : s.emails.filter
        (matchesFilters { isImportant := some true, isDeleted := some false, limit := some 1 })
        ≠ [] := by
      rw [List.filter_congr (fun e _ => matchesFilters_important _ _ e)]
      exact hne
    obtain ⟨e, rest, hcase, hmem, hmf, hmax⟩ := elseBranch_spec s _ rfl rfl hne1
    rw [matchesFilters_important _ _ e] at hmf
    simp only [Bool.and_eq_true, Bool.not_eq_true'] at hmf
    refine ⟨e, hmem, hmf.1, hmf.2, ?_, ?_, ?_⟩
    · intro x hx hxi hxd
      exact hmax x hx (by rw [matchesFilters_important _ _ x]; simp [hxi, hxd])
    · simp only [execIntent, mkIntent, Option.getD_some, truthyBool, truthyNat, hcase,
        noFail, Bool.false_eq_true, if_false, store_ok_eq]
      rw [updateEmail_fst]
      apply List.map_congr_left
      intro x _
      by_cases hxe : x.id = e.id <;> simp [hxe, applyUpdate]
    · simp only [execIntent, mkIntent, Option.getD_some, truthyBool, truthyNat, hcase,
        noFail, Bool.false_eq_true, if_false, summary_ok_eq]



theorem getEmails_congr_emails (s1 s2 : MailboxStore) (f : EmailFilters)
    (h : s1.emails = s2.emails) : getEmails s1 f = getEmails s2 f := by
  unfold getEmails
  rw [h]

/-- Claim C5 (amended): a store error on the k-th update of a bulk loop
aborts the remaining iterations — exactly the first k updates are applied —
and the route then fails generically with no summary (so no count is
reported); when no error occurs, the count stated in the summary equals the
number of emails matched by the action's initial filter, which for
`mark_important`/`mark_unread` with `all` can exceed the number of flags
actually changed. -/
theorem C5_theorem (dg : List Email → String) (s : MailboxStore) (k : Nat) (c : Rat)
    (t : String) (now : Nat)
    (hk : k < (getEmails s { isRead := some false, isDeleted := some false }).length) :
    (execIntent (fun m => m == k) dg s (mkIntent ("mark_as_read") pAll c)
        = .storeError (runBulkUpdates noFail { isRead := some true } s 0
            ((getEmails s { isRead := some false, isDeleted := some false }).take k)).1 ∧
      (execIntent (fun m => m == k) dg s (mkIntent ("mark_as_read") pAll c)).store.emails
        = s.emails.map (fun x =>
            if ((getEmails s { isRead := some false, isDeleted := some false }).take k).any
                (fun e => x.id == e.id) then
              { x with isRead := true }
            else x) ∧
      (execIntent (fun m => m == k) dg s (mkIntent ("mark_as_read") pAll c)).summary = none ∧
      (handleVoiceCommand (fun m => m == k) dg now s t (mkIntent ("mark_as_read") pAll c)).2
        = .serverError) ∧
    (execIntent noFail dg s (mkIntent ("mark_important") pAll c)).summary
      = some ("Marked all " ++ toString (s.emails.filter (fun e => !e.isDeleted)).length ++
          " emails as important.") := by
  have habort : ∀ s0 : MailboxStore, s0.emails = s.emails →
      execIntent (fun m => m == k) dg s0 (mkIntent ("mark_as_read") pAll c) =
        .storeError (runBulkUpdates noFail { isRead := some true } s0 0
          ((getEmails s { isRead := some false, isDeleted := some false }).take k)).1 := by
    intro s0 hs0
    have hge : getEmails s0 { isRead := some false, isDeleted := some false } =
        getEmails s { isRead := some false, isDeleted := some false } :=
      getEmails_congr_emails s0 s _ hs0
    have htrunc := runBulkUpdates_failAt { isRead := some true }
      (getEmails s { isRead := some false, isDeleted := some false }) s0 0 k hk
    simp only [Nat.zero_add] at htrunc
    simp only [execIntent, mkIntent, pAll, Option.getD_some, truthyBool, hge, htrunc,
      Bool.false_eq_true, if_false]
    rfl
  refine ⟨⟨habort s rfl, ?_, ?_, ?_⟩, ?_⟩
  · rw [habort s rfl, store_err_eq, runBulkUpdates_noFail_emails]
    simp only [applyUpdate, Option.getD_some, Option.getD_none]
  · rw [habort s rfl, summary_err_eq]
  · unfold handleVoiceCommand
    simp only []
    rw [habort ((createVoiceCommand s now
        { transcript := t, intent := (mkIntent ("mark_as_read") pAll c).action
          confidence := jsRound ((mkIntent ("mark_as_read") pAll c).confidence * 100)
          success := (mkIntent ("mark_as_read") pAll c).action != "unknown" }).1) rfl]
  · simp only [execIntent, mkIntent, pAll, Option.getD_some, truthyBool,
      runBulkUpdates_noFail_completes, if_true, summary_ok_eq]
    rw [getEmails_length s _ rfl rfl,
      List.filter_congr (fun e _ => matchesFilters_nondeleted _ _ e)]



/-- Claim C8: two `get_recent` intents differing only in the timeframe
parameter return the same email list — the at-most-10 most-recently-received
non-deleted emails — with no store mutation; the timeframe word affects only
the summary wording, never the selection. -/
theorem C8_theorem (dg : List Email → String) (s : MailboxStore)
    (t1 t2 : Option String) (c1 c2 : Rat) :
    (execIntent noFail dg s (mkIntent ("get_recent") { timeframe := t1 } c1)).store = s ∧
    (execIntent noFail dg s (mkIntent ("get_recent") { timeframe := t2 } c2)).store = s ∧
    (execIntent noFail dg s (mkIntent ("get_recent") { timeframe := t1 } c1)).emailList
      = (execIntent noFail dg s (mkIntent ("get_recent") { timeframe := t2 } c2)).emailList ∧
    (∃ l, (execIntent noFail dg s (mkIntent ("get_recent") { timeframe := t1 } c1)).emailList
        = some l ∧
      l.length = min 10 (s.emails.countP (fun e => !e.isDeleted)) ∧
      (∀ e ∈ l, e ∈ s.emails ∧ e.isDeleted = false) ∧
      (∀ e ∈ l, ∀ x ∈ s.emails, x.isDeleted = false → x ∉ l → x.receivedAt ≤ e.receivedAt)) := by
  have hstore : ∀ (t : Option String) (c : Rat),
      (execIntent noFail dg s (mkIntent ("get_recent") { timeframe := t } c)).store = s := by
    intro t c
    simp only [execIntent, mkIntent, Option.getD_some]
    split <;> rfl
  have hlist : ∀ (t : Option String) (c : Rat),
      (execIntent noFail dg s (mkIntent ("get_recent") { timeframe := t } c)).emailList
        = some (getEmails s { isDeleted := some false, limit := some 10 }) := by
    intro t c
    simp only [execIntent, mkIntent, Option.getD_some]
    split <;> rfl
  have hform := getEmails_limit s { isDeleted := some false, limit := some 10 } 10 rfl rfl
  refine ⟨hstore t1 c1, hstore t2 c2, by rw [hlist t1 c1, hlist t2 c2], ?_⟩
  refine ⟨getEmails s { isDeleted := some false, limit := some 10 }, hlist t1 c1, ?_, ?_, ?_⟩
  · rw [hform, List.length_take, List.length_mergeSort, List.countP_eq_length_filter]
    congr 2
    exact List.filter_congr (fun e _ => matchesFilters_nondeleted _ _ e)
  · intro e he
    rw [hform] at he
    have hs' := List.mem_of_mem_take he
    have hmf := List.mem_filter.mp (List.mem_mergeSort.mp hs')
    refine ⟨hmf.1, ?_⟩
    have := hmf.2
    rw [matchesFilters_nondeleted _ _ e] at this
    simpa using this
  · intro e he x hx hxd hxnot
    have hpw : ((s.emails.filter
        (matchesFilters { isDeleted := some false, limit := some 10 })).mergeSort
          byReceivedAtDesc).Pairwise (fun a b => byReceivedAtDesc a b) :=
      List.sorted_mergeSort byReceivedAtDesc_trans byReceivedAtDesc_total _
    set sorted := (s.emails.filter
        (matchesFilters { isDeleted := some false, limit := some 10 })).mergeSort
          byReceivedAtDesc with hsorted
    have hxs : x ∈ sorted := by
      rw [hsorted]
      exact List.mem_mergeSort.mpr (List.mem_filter.mpr
        ⟨hx, by rw [matchesFilters_nondeleted _ _ x]; simp [hxd]⟩)
    have hpw2 : (sorted.take 10 ++ sorted.drop 10).Pairwise (fun a b => byReceivedAtDesc a b) := by
      rw [List.take_append_drop]
      exact hpw
    rw [hform] at he hxnot
    rw [show sorted = sorted.take 10 ++ sorted.drop 10 from
      (List.take_append_drop 10 sorted).symm] at hxs
    rcases List.mem_append.mp hxs with hxt | hxdrop
    · exact absurd hxt hxnot
    · have hcross := (List.pairwise_append.mp hpw2).2.2 e he x hxdrop
      simpa [byReceivedAtDesc] using hcross



def w3Store : MailboxStore :=
  { emails := [{ id := 1, messageId := "w3", fromEmail := "a@b.c" }], currentEmailId := 2 }

theorem C3_witness :
    execIntent noFail (fun _ => "") w3Store (mkIntent ("mark_as_read") {} 1)
      = .ok w3Store { intent := mkIntent ("mark_as_read") {} 1
                      summary := some ("I\x27d be happy to mark emails as read. Just let me know which ones - you can say \x27mark all as read\x27 or specify particular emails.") } :=
  (C3_theorem (fun _ => "") w3Store (by unfold storeWf; decide) 2 (by decide) 1).1

def w4Store : MailboxStore :=
  { emails := [{ id := 1, messageId := "w4", fromEmail := "a@b.c", receivedAt := 10 }]
    currentEmailId := 2 }

theorem C4_witness :
    execIntent noFail (fun _ => "") w4Store
        { action := "delete_emails", parameters := some { query := some ("x") }, confidence := 1 }
      = .ok w4Store
          { intent := { action := "delete_emails", parameters := some { query := some ("x") },
                        confidence := 1 }
            summary := some ("I can help you delete emails. Just specify which ones - you can say \x27delete all emails\x27 or mention specific emails.") } :=
  (C4_theorem (fun _ => "") w4Store (by unfold storeWf; decide) ("x") (by decide) 1
    (by decide) 1).2.2.2.1

def w5Email : Email := { id := 1, messageId := "w5", fromEmail := "a@b.c", receivedAt := 5 }

def w5Store : MailboxStore := { emails := [w5Email], currentEmailId := 2 }

theorem C5_witness :
    (handleVoiceCommand (fun m => m == 0) (fun _ => "") 3 w5Store ("t")
        (mkIntent ("mark_as_read") pAll 1)).2 = .serverError := by
  have hget : getEmails w5Store { isRead := some false, isDeleted := some false }
      = [w5Email] := by
    simp only [getEmails, w5Store, List.filter_cons, List.filter_nil]
    rw [show matchesFilters { isRead := some false, isDeleted := some false } w5Email = true
      from by decide]
    simp
  have hk : 0 < (getEmails w5Store { isRead := some false, isDeleted := some false }).length := by
    rw [hget]
    decide
  exact ((C5_theorem (fun _ => "") w5Store 0 1 ("t") 3 hk).1).2.2.2

def w8Store : MailboxStore :=
  { emails := [{ id := 1, messageId := "w8", fromEmail := "a@b.c", receivedAt := 20 }]
    currentEmailId := 2 }

theorem C8_witness :
    (execIntent noFail (fun _ => "") w8Store
        (mkIntent ("get_recent") { timeframe := some ("today") } 1)).emailList
      = (execIntent noFail (fun _ => "") w8Store
          (mkIntent ("get_recent") { timeframe := some ("this week") } 1)).emailList ∧
    (execIntent noFail (fun _ => "") w8Store
        (mkIntent ("get_recent") { timeframe := some ("today") } 1)).store = w8Store := by
  have h := C8_theorem (fun _ => "") w8Store (some ("today")) (some ("this week")) 1 1
  exact ⟨h.2.2.1, h.1⟩

end VoiceMail
